import Mathlib

/-! # Garage door opener: access-control state machine

A shallow embedding of `src/main.cpp` (ESP32 firmware, Arduino framework).

* The global variables of the program are the fields of `State`.
* Every call into a collaborator that the program does not own (the display
  driver `lc`, the BLE server, the relay pin, the serial port, `delay`) is
  recorded, in program order, as an `Effect`; an operation returns the new
  state together with the list of effects it issued.
* Everything the program reads from outside (the bonded-device count, the
  enumeration buffer, clock readings of `millis()`, pin levels) is an explicit
  argument of the operation that reads it.
* `unsigned long`, `uint32_t` and `uint8_t` values are natural numbers, reduced
  modulo `2^32` respectively `2^8` where the program computes with them.
* Each callback and each pass of `loop` is one atomic operation.
-/

namespace GarageDoor

/-! ## Constants -/

/-- GPIO pin of the relay (`#define RELAY_PIN 12`). -/
def RELAY_PIN : Nat := 12

/-- GPIO pin of the button (`#define BUTTON_PIN 13`). -/
def BUTTON_PIN : Nat := 13

/-- Hold time that opens the pairing window, in milliseconds. -/
def PAIRING_PRESS_DURATION_MILLIS : Nat := 5000

/-- Length of the pairing window, in milliseconds. -/
def PAIRING_WINDOW_TIMEOUT_MILLIS : Nat := 60000

/-- Hold time at boot that triggers a factory reset, in milliseconds. -/
def FACTORY_RESET_PRESS_DURATION : Nat := 5000

/-- Number of values of a 32-bit unsigned integer (`unsigned long` on the ESP32). -/
def U32 : Nat := 4294967296

/-- Number of values of an 8-bit unsigned integer. -/
def U8 : Nat := 256

/-- Difference of two 32-bit unsigned values, as the machine computes it. -/
def sub32 (a b : Nat) : Nat := (a % U32 + U32 - b % U32) % U32

/-! ## Data model -/

/-- A Bluetooth device address, `esp_bd_addr_t` (six bytes). -/
structure BdAddr where
  b0 : Nat
  b1 : Nat
  b2 : Nat
  b3 : Nat
  b4 : Nat
  b5 : Nat
  deriving DecidableEq, Repr

/-- The global variables of the program (lines 35-49). -/
structure State where
  deviceConnected : Bool
  oldDeviceConnected : Bool
  currentDisplayedPasskey : Nat
  pairingModeActive : Bool
  allowNewPairing : Bool
  buttonPressStartTime : Nat
  pairingModeStartTime : Nat
  lastDisplayUpdate : Nat
  deriving DecidableEq, Repr

/-- The values the globals are initialised with. -/
def State.initial : State where
  deviceConnected := false
  oldDeviceConnected := false
  currentDisplayedPasskey := 0
  pairingModeActive := false
  allowNewPairing := false
  buttonPressStartTime := 0
  pairingModeStartTime := 0
  lastDisplayUpdate := 0

/-- A call into a collaborator, in the order the program makes it. -/
inductive Effect where
  /-- Text sent to the serial port by `Serial.print`, `println` or `printf`. -/
  | serial (text : String)
  /-- The call `delay(ms)`. -/
  | delay (ms : Nat)
  /-- The call `lc.clearMatrix()`. -/
  | clearMatrix
  /-- The call `lc.setChar(0, digit, value, dp)`. -/
  | setChar (digit : Nat) (value : Char) (dp : Bool)
  /-- The call `lc.setColumn(0, col, value)`. -/
  | setColumn (col : Nat) (value : Nat)
  /-- The call `digitalWrite(pin, level)`, `true` for `HIGH`. -/
  | digitalWrite (pin : Nat) (level : Bool)
  /-- The call `pServer->disconnect(connId)`. -/
  | disconnect (connId : Nat)
  /-- The call `esp_ble_set_encryption(addr, ESP_BLE_SEC_ENCRYPT_MITM)`. -/
  | setEncryption (addr : BdAddr)
  /-- The call `pServer->getAdvertising()->start()`. -/
  | advertisingStart
  /-- The call `pServer->getAdvertising()->stop()`. -/
  | advertisingStop
  /-- The call `pCharacteristic->setValue(text)`. -/
  | setValue (text : String)
  /-- The call `pCharacteristic->notify()`. -/
  | notify
  deriving DecidableEq, Repr

/-- Effect of `Serial.print(text)`. -/
def print (text : String) : Effect := Effect.serial text

/-- Effect of `Serial.println(text)`: the text followed by a line break. -/
def println (text : String) : Effect := Effect.serial (text ++ "\r\n")

/-- One hexadecimal digit, upper case. -/
def hexDigit (n : Nat) : Char :=
  if n < 10 then Char.ofNat (48 + n) else Char.ofNat (55 + n)

/-- A byte as `%02X` prints it. -/
def hex2 (b : Nat) : String :=
  String.mk [hexDigit (b % U8 / 16), hexDigit (b % 16)]

/-- An address as `%02X:%02X:%02X:%02X:%02X:%02X` prints it. -/
def fmtAddr (a : BdAddr) : String :=
  hex2 a.b0 ++ ":" ++ hex2 a.b1 ++ ":" ++ hex2 a.b2 ++ ":" ++
    hex2 a.b3 ++ ":" ++ hex2 a.b4 ++ ":" ++ hex2 a.b5

/-- The Arduino `String::charAt`: the character at `i`, or `0` past the end. -/
def charAt (str : String) (i : Nat) : Char :=
  str.data.getD i (Char.ofNat 0)

/-! ## Display -/

/-- The prefix loop of `displayString` (lines 122-126): `i` runs from 7 down
while `i > segPos`; the last character written gets the decimal point. -/
def prefixLoop (pfx : String) (segPos : Nat) : Nat → Nat → List Effect
  | 0, _ => []
  | i + 1, charAtPos =>
    if segPos < i + 1 then
      Effect.setChar (i + 1) (charAt pfx charAtPos) (decide (i ≤ segPos)) ::
        prefixLoop pfx segPos i ((charAtPos + 1) % U8)
    else []

/-- The text loop of `displayString` (lines 129-136) over the characters still
to write, `i` being the index of the first of them. `segPos` is a `uint8_t`:
the post-decrement wraps from 0 to 255. -/
def textLoop (len : Nat) : List Char → Nat → Nat → List Effect
  | [], _, _ => []
  | c :: rest, i, segPos =>
    let segPos' := (segPos + U8 - 1) % U8
    Effect.setChar segPos c false ::
      (if segPos' = 0 ∧ i + 2 < len then [Effect.setChar segPos' '-' false]
       else textLoop len rest (i + 1) segPos')

/-- The start position `segPos` of `displayString` (lines 116-118). -/
def startPos (len startSegment : Nat) : Nat :=
  if 7 < startSegment then (if 7 < len then 7 else len % U8)
  else 7 - startSegment

/-- The function `displayString(const String&, uint8_t, const String&)`
(lines 108-137); `now` is the reading of `millis()` at line 112. -/
def displayString (s : State) (now : Nat) (str : String) (startSegment : Nat)
    (pfx : String) : State × List Effect :=
  if s.pairingModeActive = true ∧ 0 < s.currentDisplayedPasskey then
    (s, [])
  else
    let s1 := { s with lastDisplayUpdate := now % U32 }
    let len := str.length
    let segPos := startPos len startSegment
    let pre := if 0 < pfx.length then prefixLoop pfx segPos 7 0 else []
    (s1, Effect.clearMatrix :: (pre ++ textLoop len str.data 0 segPos))

/-- The overload `displayString(uint32_t, uint8_t, const String&)`
(lines 139-142): the number is rendered in decimal. -/
def displayNumber (s : State) (now : Nat) (numberInt : Nat) (startSegment : Nat)
    (pfx : String) : State × List Effect :=
  displayString s now (toString (numberInt % U32)) startSegment pfx

/-- The function `displayClear` (lines 144-150). -/
def displayClear (s : State) : State × List Effect :=
  if s.currentDisplayedPasskey = 0 then
    ({ s with lastDisplayUpdate := 0 }, [Effect.clearMatrix])
  else (s, [])

/-- One step of the sweeps of `knightRiderEffect`: light a column, wait, and
switch it off. -/
def sweepColumn (i : Nat) : List Effect :=
  [Effect.setColumn i 255, Effect.delay 40, Effect.setColumn i 0]

/-- The function `knightRiderEffect` (lines 152-164): columns 0 to 7, then 6
down to 1, then the display is cleared. -/
def knightRiderEffect : List Effect :=
  ([0, 1, 2, 3, 4, 5, 6, 7].flatMap sweepColumn) ++
    ([6, 5, 4, 3, 2, 1].flatMap sweepColumn) ++ [Effect.clearMatrix]

/-! ## Gesture detector -/

/-- One pass of the `while` of `waitForButtonPressDuration`: the level read
from the button pin in the loop condition, the reading of `millis()` at line
192, and the reading of `millis()` inside `displayString` when the countdown is
shown in this pass. -/
structure Poll where
  pin : Bool
  now : Nat
  dispNow : Nat
  deriving DecidableEq, Repr

/-- What one call of `waitForButtonPressDuration` reads from outside: the
reading of `millis()` at entry, the pin level at line 190 and the passes of the
`while`. -/
structure GestureInput where
  startTime : Nat
  entryPin : Bool
  polls : List Poll
  deriving DecidableEq, Repr

/-- Lines 195-199 of `waitForButtonPressDuration`: the countdown is shown and
logged when the number of seconds remaining has changed. The third component
is the new value of `lastDisplayedSecond`. -/
def showCountdown (s : State) (dispNow secondsRemaining lastDisplayedSecond : Nat)
    (prefixText : String) : State × List Effect × Nat :=
  if secondsRemaining ≠ lastDisplayedSecond then
    let d := displayNumber s dispNow secondsRemaining (prefixText.length % U8) prefixText
    (d.1, d.2 ++ [println ("Hold for " ++ toString secondsRemaining ++ " more seconds...")],
      secondsRemaining)
  else (s, [], lastDisplayedSecond)

/-- The `while` of `waitForButtonPressDuration` (lines 191-204). The result is
`none` when the recorded polls end before the function returns. -/
def waitLoop (requiredDuration startTime : Nat) (prefixText : String) :
    List Poll → State → Nat → Option (Bool × State × List Effect)
  | [], _, _ => none
  | p :: rest, s, lastDisplayedSecond =>
    if p.pin = true then
      let elapsedTime := sub32 p.now startTime
      let secondsRemaining := sub32 requiredDuration elapsedTime / 1000
      let shown := showCountdown s p.dispNow secondsRemaining lastDisplayedSecond prefixText
      if requiredDuration ≤ elapsedTime then
        let c := displayClear shown.1
        some (true, c.1, shown.2.1 ++ c.2)
      else
        match waitLoop requiredDuration startTime prefixText rest shown.1 shown.2.2 with
        | none => none
        | some (r, s', es) => some (r, s', shown.2.1 ++ Effect.delay 10 :: es)
    else
      let c := displayClear s
      some (false, c.1, c.2)

/-- The function `waitForButtonPressDuration` (lines 185-208). The levels of
`buttonPin` are those recorded in the input. -/
def waitForButtonPressDuration (s : State) (inp : GestureInput) (requiredDuration : Nat)
    (prefixText : String) : Option (Bool × State × List Effect) :=
  let startTime := inp.startTime % U32
  let secondsRemaining := requiredDuration % U32 / 1000
  if inp.entryPin = true then
    match waitLoop (requiredDuration % U32) startTime prefixText inp.polls s secondsRemaining with
    | none => none
    | some (r, s', es) => some (r, s', Effect.delay 15 :: es)
  else some (false, s, [Effect.delay 15])

/-! ## Server callbacks -/

/-- The argument of `onConnect`: `param->connect.conn_id` and
`param->connect.remote_bda`. -/
structure ConnectParam where
  conn_id : Nat
  remote_bda : BdAddr
  deriving DecidableEq, Repr

/-- What `onConnect` reads from outside. `bondNum` is the result of
`esp_ble_get_bond_device_num()`. `bondList` is `none` when `heap_caps_malloc`
returns a null pointer; otherwise it holds the entries `0 .. dev_num - 1` of the
buffer after `esp_ble_get_bond_device_list(&dev_num, bond_dev_list)`.
`encryptOk` tells whether `esp_ble_set_encryption` returns `ESP_OK`, and `now`
is the reading of `millis()` in `displayString`. -/
structure ConnectEnv where
  bondNum : Int
  bondList : Option (List BdAddr)
  encryptOk : Bool
  now : Nat
  deriving DecidableEq, Repr

/-- Lines 247-261 of `onConnect`: the link is kept and encryption is requested. -/
def onConnectAccept (s : State) (env : ConnectEnv) (param : ConnectParam) :
    State × List Effect :=
  let s1 := { s with deviceConnected := true }
  let d := displayString s1 env.now (if env.encryptOk = true then "COn 6ood" else "COn FAil") 0 ""
  (d.1, [print "Device MAC address: ", println (fmtAddr param.remote_bda),
          Effect.setEncryption param.remote_bda] ++ d.2)

/-- Lines 236-243 of `onConnect`: the link is terminated. -/
def onConnectReject (s : State) (env : ConnectEnv) (param : ConnectParam) :
    State × List Effect :=
  let d := displayString s env.now "UNAUTH" 0 ""
  ({ d.1 with deviceConnected := false },
    println "UNAUTHORIZED CONNECTION ATTEMPT - Disconnecting!" :: d.2 ++
      [Effect.delay 1000, Effect.disconnect param.conn_id])

/-- The callback `MyServerCallbacks::onConnect` (lines 213-262). -/
def onConnect (s : State) (env : ConnectEnv) (param : ConnectParam) : State × List Effect :=
  let hello := println "Device connected. Starting secure connection process..."
  if 0 < env.bondNum ∧ s.allowNewPairing = false then
    match env.bondList with
    | some bond_dev_list =>
      let deviceBonded := bond_dev_list.any (fun a => decide (a = param.remote_bda))
      if deviceBonded = false then
        let r := onConnectReject s env param
        (r.1, hello :: r.2)
      else
        let r := onConnectAccept s env param
        (r.1, hello :: r.2)
    | none =>
      let r := onConnectAccept s env param
      (r.1, hello :: r.2)
  else
    let r := onConnectAccept s env param
    (r.1, hello :: r.2)

/-- What `onDisconnect` reads from outside: the bonded-device count and the
readings of `millis()` in its two `displayString` calls. -/
structure DisconnectEnv where
  bondNum : Int
  now : Nat
  advNow : Nat
  deriving DecidableEq, Repr

/-- The callback `MyServerCallbacks::onDisconnect` (lines 264-276). -/
def onDisconnect (s : State) (env : DisconnectEnv) : State × List Effect :=
  let d := displayString s env.now "COn Dis" 0 ""
  let s1 := { d.1 with deviceConnected := false }
  let e1 := println "Device disconnected. Attempting to restart advertising..." :: d.2
  if 0 < env.bondNum then
    let d2 := displayString s1 env.advNow "Adv st" 0 ""
    (d2.1, e1 ++ d2.2 ++ [Effect.delay 500, Effect.advertisingStart,
      println "Advertising restarted for reconnection of bonded devices."])
  else (s1, e1)

/-! ## Security callbacks -/

/-- What a security callback reads from outside: the bonded-device count
(`esp_ble_get_bond_device_num()`), the connection id (`pServer->getConnId()`)
and the reading of `millis()` in `displayString`. -/
structure SecurityEnv where
  bondNum : Int
  connId : Nat
  now : Nat
  deriving DecidableEq, Repr

/-- The row of asterisks the security callbacks print. -/
def stars : String := "*************************************************"

/-- The callback `MySecurityCallbacks::onPassKeyNotify` (lines 283-307). -/
def onPassKeyNotify (s : State) (env : SecurityEnv) (pass_key : Nat) : State × List Effect :=
  if 0 < env.bondNum ∧ s.allowNewPairing = false then
    (s, [println ("\n" ++ stars),
         println "****** UNAUTHORIZED PAIRING ATTEMPT DETECTED ******",
         println (stars ++ "\n"),
         println "Rejecting passkey display - not in pairing mode!",
         Effect.disconnect env.connId])
  else
    let s1 := { s with currentDisplayedPasskey := pass_key % U32 }
    let d := displayNumber s1 env.now pass_key 2 "P5"
    (d.1, [println ("\n" ++ stars),
           print "****** PAIRING PASSKEY TO ENTER ON CLIENT: ",
           print (toString (pass_key % U32)),
           println " ******",
           println (stars ++ "\n"),
           println ("Please enter this 6-digit passkey on your client (e.g., smartphone) " ++
             "to complete pairing.")] ++ d.2)

/-- The callback `MySecurityCallbacks::onSecurityRequest` (lines 324-340); the
first component is the value returned. -/
def onSecurityRequest (s : State) (env : SecurityEnv) : Bool × State × List Effect :=
  if 0 < env.bondNum ∧ s.allowNewPairing = false then
    let d := displayString s env.now "SEC rEj" 0 ""
    let c := displayClear d.1
    (false, c.1,
      [println "SECURITY REQUEST REJECTED - Device not in pairing mode!",
       println "To pair a new device, press and hold the pairing button for 5 seconds."] ++
      d.2 ++ [Effect.delay 1000] ++ c.2 ++ [Effect.disconnect env.connId])
  else
    (true, s, [println "Security Request received from client. Allowing..."])

/-- The argument of `onAuthenticationComplete`, `esp_ble_auth_cmpl_t`: the
fields the program reads. -/
structure AuthCmpl where
  success : Bool
  bd_addr : BdAddr
  fail_reason : Nat
  deriving DecidableEq, Repr

/-- Lines 346-361 of `onAuthenticationComplete`: the outcome is reported. -/
def reportOutcome (s : State) (env : SecurityEnv) (auth_cmpl : AuthCmpl) :
    State × List Effect :=
  if auth_cmpl.success = true then
    let d := displayString s env.now "SEC PASS" 0 ""
    (d.1, [println "\nAuthentication SUCCESS! Device bonded.",
           print "Bonded device address: ",
           print (fmtAddr auth_cmpl.bd_addr ++ "\n"),
           println "Future connections with this device will be automatically re-encrypted."] ++
          d.2)
  else
    let d := displayString s env.now "SEC FAIL" 0 ""
    (d.1, d.2 ++ [println "\nAuthentication FAILED! Connection terminated.",
                  print ("Reason: " ++ toString auth_cmpl.fail_reason ++ "\n"),
                  Effect.disconnect env.connId])

/-- The callback `MySecurityCallbacks::onAuthenticationComplete`
(lines 343-369). -/
def onAuthenticationComplete (s : State) (env : SecurityEnv) (auth_cmpl : AuthCmpl) :
    State × List Effect :=
  let s1 := { s with currentDisplayedPasskey := 0 }
  let r := reportOutcome s1 env auth_cmpl
  if r.1.pairingModeActive = true then
    ({ r.1 with pairingModeActive := false, allowNewPairing := false },
      Effect.clearMatrix :: r.2 ++ [Effect.advertisingStop,
        println "Pairing mode (advertising) deactivated after authentication attempt."])
  else (r.1, Effect.clearMatrix :: r.2)

/-! ## Characteristic callbacks -/

/-- The command literal compared with the written value at line 393. -/
def TRIGGER : String := "TRIGGER"

/-- The callback `MyCharacteristicCallbacks::onWrite` (lines 374-407).
`bondNum` is the result of `esp_ble_get_bond_device_num()` and `value` the
result of `pCharacteristic->getValue()`, one character per byte. -/
def onWrite (s : State) (bondNum : Int) (value : String) : State × List Effect :=
  if bondNum ≤ 0 then
    (s, [println "WARNING: Write attempt with no bonded devices. Ignored.",
         Effect.setValue "Security error: No bonded devices",
         Effect.notify])
  else if value.data ≠ [] then
    let received := print "Received command: " ::
      value.data.map (fun c => print (String.singleton c)) ++ [println ""]
    if value = TRIGGER then
      (s, received ++ [println "--- Triggering Garage Door Relay ---",
                       Effect.digitalWrite RELAY_PIN true] ++
                      knightRiderEffect ++
                      [Effect.digitalWrite RELAY_PIN false,
                       println "--- Relay action complete ---",
                       Effect.setValue "Command executed",
                       Effect.notify])
    else
      (s, received ++ [println "Unknown command received.",
                       Effect.setValue "Unknown command received",
                       Effect.notify])
  else (s, [])

/-! ## Foreground loop -/

/-- What one pass of `loop` reads from outside: the input of the gesture
detector and the readings of `millis()` at line 513, in the `displayString` of
line 518, at line 523, in the `displayString` of line 528 and at line 541. -/
structure LoopEnv where
  gesture : GestureInput
  activateNow : Nat
  activateDispNow : Nat
  timeoutNow : Nat
  timeoutDispNow : Nat
  housekeepingNow : Nat
  deriving DecidableEq, Repr

/-- Lines 510-518 of `loop`: the pairing window is opened. -/
def openWindow (s : State) (env : LoopEnv) : State × List Effect :=
  let s1 := { s with pairingModeActive := true, allowNewPairing := true,
                     pairingModeStartTime := env.activateNow % U32 }
  let d := displayString s1 env.activateDispNow "PAIr ACt" 0 ""
  (d.1, [Effect.advertisingStart,
         println "\n******************************************",
         println "PAIRING MODE ACTIVATED! Advertising started.",
         println "Will remain active for 60 seconds if no connection is made.",
         println "******************************************\n"] ++ d.2)

/-- Lines 509-519 of `loop`: the gesture is polled only while the pairing
window is closed. The result is `none` when the gesture detector does not
return on the recorded polls. -/
def loopActivation (s : State) (env : LoopEnv) : Option (State × List Effect) :=
  if s.pairingModeActive = false then
    match waitForButtonPressDuration s env.gesture PAIRING_PRESS_DURATION_MILLIS "PAIr" with
    | none => none
    | some (true, s1, e1) =>
      let r := openWindow s1 env
      some (r.1, e1 ++ r.2)
    | some (false, s1, e1) => some (s1, e1)
  else some (s, [])

/-- Lines 523-529 of `loop`: the timeout check of the pairing window. -/
def loopTimeout (s : State) (env : LoopEnv) : State × List Effect :=
  if s.pairingModeActive = true ∧ s.deviceConnected = false ∧
      PAIRING_WINDOW_TIMEOUT_MILLIS ≤ sub32 env.timeoutNow s.pairingModeStartTime then
    let s1 := { s with pairingModeActive := false, allowNewPairing := false }
    let d := displayString s1 env.timeoutDispNow "PAIr StP" 0 ""
    (d.1, [println "Pairing mode timed out. No connection made within 60 seconds.",
           Effect.advertisingStop] ++ d.2)
  else (s, [])

/-- Lines 532-540 of `loop`. The body of the second `if` (line 539) is a
comment only, so `oldDeviceConnected` is never reset there. -/
def loopConnectionTracking (s : State) : State × List Effect :=
  if s.deviceConnected = true ∧ s.oldDeviceConnected = false then
    ({ s with oldDeviceConnected := s.deviceConnected },
      [println "Initial connection established. Awaiting authentication..."])
  else (s, [])

/-- Lines 541-543 of `loop`: a display older than five seconds is cleared. -/
def loopDisplayTimeout (s : State) (env : LoopEnv) : State × List Effect :=
  if 0 < s.lastDisplayUpdate ∧ 5000 ≤ sub32 env.housekeepingNow s.lastDisplayUpdate then
    displayClear s
  else (s, [])

/-- The function `loop` (lines 507-546), one pass. -/
def loop (s : State) (env : LoopEnv) : Option (State × List Effect) :=
  match loopActivation s env with
  | none => none
  | some (s1, e1) =>
    let t := loopTimeout s1 env
    let c := loopConnectionTracking t.1
    let h := loopDisplayTimeout c.1 env
    some (h.1, e1 ++ t.2 ++ c.2 ++ h.2 ++ [Effect.delay 100])

/-! ## The program as a transition system -/

/-- One atomic operation of the program: a callback delivered by the BLE
stack, a pass of `loop`, one of the parts of a pass, or a call of the gesture
detector. -/
inductive Step : State → State → Prop
  | connect (s : State) (env : ConnectEnv) (param : ConnectParam) :
      Step s (onConnect s env param).1
  | disconnect (s : State) (env : DisconnectEnv) :
      Step s (onDisconnect s env).1
  | securityRequest (s : State) (env : SecurityEnv) :
      Step s (onSecurityRequest s env).2.1
  | passKeyNotify (s : State) (env : SecurityEnv) (pass_key : Nat) :
      Step s (onPassKeyNotify s env pass_key).1
  | authenticationComplete (s : State) (env : SecurityEnv) (auth_cmpl : AuthCmpl) :
      Step s (onAuthenticationComplete s env auth_cmpl).1
  | write (s : State) (bondNum : Int) (value : String) :
      Step s (onWrite s bondNum value).1
  | gesture (s : State) (inp : GestureInput) (requiredDuration : Nat) (prefixText : String)
      (r : Bool) (s' : State) (es : List Effect) :
      waitForButtonPressDuration s inp requiredDuration prefixText = some (r, s', es) →
      Step s s'
  | activation (s : State) (env : LoopEnv) (s' : State) (es : List Effect) :
      loopActivation s env = some (s', es) → Step s s'
  | timeout (s : State) (env : LoopEnv) :
      Step s (loopTimeout s env).1
  | connectionTracking (s : State) :
      Step s (loopConnectionTracking s).1
  | displayTimeout (s : State) (env : LoopEnv) :
      Step s (loopDisplayTimeout s env).1
  | loopPass (s : State) (env : LoopEnv) (s' : State) (es : List Effect) :
      loop s env = some (s', es) → Step s s'

/-- The states the program can be in: the initial state and every state an
operation leads to from a reachable one. -/
inductive Reachable : State → Prop
  | initial : Reachable State.initial
  | step (s s' : State) : Reachable s → Step s s' → Reachable s'

/-! ## Observers on effect lists -/

/-- An effect that writes to the display driver. -/
def Effect.isDisplay : Effect → Bool
  | Effect.clearMatrix => true
  | Effect.setChar _ _ _ => true
  | Effect.setColumn _ _ => true
  | _ => false

/-- An effect that terminates a link. -/
def Effect.isDisconnect : Effect → Bool
  | Effect.disconnect _ => true
  | _ => false

/-- An effect that requests encryption of a link. -/
def Effect.isSetEncryption : Effect → Bool
  | Effect.setEncryption _ => true
  | _ => false

/-- An effect that drives an output pin. -/
def Effect.isDigitalWrite : Effect → Bool
  | Effect.digitalWrite _ _ => true
  | _ => false

/-- An effect on the serial port. -/
def Effect.isSerial : Effect → Bool
  | Effect.serial _ => true
  | _ => false

/-- An effect that sets the value of the characteristic. -/
def Effect.isSetValue : Effect → Bool
  | Effect.setValue _ => true
  | _ => false

/-- The level of the relay pin after a list of effects, `level` being the
level before. -/
def relayAfter (level : Bool) : List Effect → Bool
  | [] => level
  | Effect.digitalWrite pin l :: rest =>
    if pin = RELAY_PIN then relayAfter l rest else relayAfter level rest
  | _ :: rest => relayAfter level rest

/-- What an operation may do to the two flags of the pairing window: leave
both as they are, set both, or clear both. -/
def WindowMove (s s' : State) : Prop :=
  (s'.pairingModeActive = s.pairingModeActive ∧ s'.allowNewPairing = s.allowNewPairing) ∨
  (s'.pairingModeActive = true ∧ s'.allowNewPairing = true) ∨
  (s'.pairingModeActive = false ∧ s'.allowNewPairing = false)

/-! ## Concrete inputs and states -/

/-- A pass of `loop` in which the button is held for five seconds: polls at
2500 ms and 5000 ms after entry, both with the pin asserted. -/
def heldFiveSeconds : LoopEnv where
  gesture := ⟨0, true, [⟨true, 2500, 2500⟩, ⟨true, 5000, 5000⟩]⟩
  activateNow := 5001
  activateDispNow := 5001
  timeoutNow := 5002
  timeoutDispNow := 5002
  housekeepingNow := 5003

/-- The state after the pass `heldFiveSeconds` from the initial state: the
pairing window has been opened at clock reading 5001. -/
def windowOpened : State where
  deviceConnected := false
  oldDeviceConnected := false
  currentDisplayedPasskey := 0
  pairingModeActive := true
  allowNewPairing := true
  buttonPressStartTime := 0
  pairingModeStartTime := 5001
  lastDisplayUpdate := 5001

/-- The state after a peer has connected at clock reading 6000 while the window
of `windowOpened` is open. -/
def windowOpenState : State where
  deviceConnected := true
  oldDeviceConnected := false
  currentDisplayedPasskey := 0
  pairingModeActive := true
  allowNewPairing := true
  buttonPressStartTime := 0
  pairingModeStartTime := 5001
  lastDisplayUpdate := 6000

/-! ## Executions -/

/-- An operation of the program together with what it reads from outside: a
callback, a call of the gesture detector, a pass of `loop` or one of the parts
of a pass. -/
inductive Event where
  | connect (env : ConnectEnv) (param : ConnectParam)
  | disconnect (env : DisconnectEnv)
  | securityRequest (env : SecurityEnv)
  | passKeyNotify (env : SecurityEnv) (pass_key : Nat)
  | authenticationComplete (env : SecurityEnv) (auth_cmpl : AuthCmpl)
  | write (bondNum : Int) (value : String)
  | gesture (inp : GestureInput) (requiredDuration : Nat) (prefixText : String)
  | activation (env : LoopEnv)
  | timeout (env : LoopEnv)
  | connectionTracking
  | displayTimeout (env : LoopEnv)
  | loopPass (env : LoopEnv)
  deriving DecidableEq, Repr

/-- The state and the effects after an event; `none` when the gesture
detector does not return on the recorded polls. -/
def Event.run (s : State) : Event → Option (State × List Effect)
  | Event.connect env param => some (onConnect s env param)
  | Event.disconnect env => some (onDisconnect s env)
  | Event.securityRequest env => some (onSecurityRequest s env).2
  | Event.passKeyNotify env pass_key => some (onPassKeyNotify s env pass_key)
  | Event.authenticationComplete env auth_cmpl =>
    some (onAuthenticationComplete s env auth_cmpl)
  | Event.write bondNum value => some (onWrite s bondNum value)
  | Event.gesture inp requiredDuration prefixText =>
    match waitForButtonPressDuration s inp requiredDuration prefixText with
    | none => none
    | some (_, s', es) => some (s', es)
  | Event.activation env => loopActivation s env
  | Event.timeout env => some (loopTimeout s env)
  | Event.connectionTracking => some (loopConnectionTracking s)
  | Event.displayTimeout env => some (loopDisplayTimeout s env)
  | Event.loopPass env => loop s env

/-- The state after a sequence of events, in order. -/
def runEvents (s : State) : List Event → Option State
  | [] => some s
  | e :: rest =>
    match e.run s with
    | none => none
    | some r => runEvents r.1 rest

/-- The event is a call of `onAuthenticationComplete`. -/
def Event.isAuthenticationComplete : Event → Bool
  | Event.authenticationComplete _ _ => true
  | _ => false

/-- The clock reading of the timeout check of line 523, for the events that
make the check. -/
def Event.timeoutReading : Event → Option Nat
  | Event.timeout env => some env.timeoutNow
  | Event.loopPass env => some env.timeoutNow
  | _ => none

/-- The pairing window is open, and was opened at clock reading `T`. -/
def OpenSince (T : Nat) (s : State) : Prop :=
  s.pairingModeActive = true ∧ s.allowNewPairing = true ∧ s.pairingModeStartTime = T % U32

/-- The fields that only the pairing window and the passkey callbacks write are
the same in both states. -/
def Keeps (s s' : State) : Prop :=
  s'.currentDisplayedPasskey = s.currentDisplayedPasskey ∧
  s'.pairingModeActive = s.pairingModeActive ∧
  s'.allowNewPairing = s.allowNewPairing ∧
  s'.pairingModeStartTime = s.pairingModeStartTime

/-- The line `waitForButtonPressDuration` logs when it shows `n` seconds. -/
def countdownLog (n : Nat) : Effect :=
  println ("Hold for " ++ toString n ++ " more seconds...")

/-- An effect on the characteristic: its value is set or it is notified. -/
def Effect.isReply : Effect → Bool
  | Effect.setValue _ => true
  | Effect.notify => true
  | _ => false

/-- The elapsed time the gesture detector computes at a poll (line 192). -/
def Poll.elapsed (startTime : Nat) (p : Poll) : Nat := sub32 p.now startTime

/-- Events after the pass `heldFiveSeconds`: a peer connects at clock reading
6000, then `loop` makes a pass whose timeout check reads the clock at 61000. -/
def connectThenPass : List Event :=
  [Event.connect ⟨0, none, true, 6000⟩ ⟨4, ⟨9, 9, 9, 9, 9, 9⟩⟩,
   Event.loopPass ⟨⟨0, false, []⟩, 0, 0, 61000, 61000, 61000⟩]

/-- The state after `connectThenPass` from `windowOpened`. -/
def windowStillOpen : State where
  deviceConnected := true
  oldDeviceConnected := true
  currentDisplayedPasskey := 0
  pairingModeActive := true
  allowNewPairing := true
  buttonPressStartTime := 0
  pairingModeStartTime := 5001
  lastDisplayUpdate := 0

/-- The value `waitLoop` returns, without the state and the effects: `true`
at the first poll that reads the pin asserted with the threshold reached,
`false` at the first poll that reads it released, `none` when the polls end
before either. -/
def pollOutcome (requiredDuration startTime : Nat) : List Poll → Option Bool
  | [] => none
  | p :: rest =>
    if p.pin = true then
      if requiredDuration ≤ sub32 p.now startTime then some true
      else pollOutcome requiredDuration startTime rest
    else some false

/-- The countdown step of `waitLoop` at the poll `p`: `showCountdown` applied
to the number of seconds computed at line 194. -/
def countdownAt (requiredDuration startTime : Nat) (prefixText : String) (p : Poll)
    (s : State) (lastDisplayedSecond : Nat) : State × List Effect × Nat :=
  showCountdown s p.dispNow (sub32 requiredDuration (sub32 p.now startTime) / 1000)
    lastDisplayedSecond prefixText

/-- A pairing attempt that is abandoned: the window is opened by
`heldFiveSeconds`, a peer connects, a passkey is generated, the peer
disconnects before authentication completes, and the window times out. -/
def abandonedPairing : List Event :=
  [Event.loopPass heldFiveSeconds,
   Event.connect ⟨0, none, true, 6000⟩ ⟨4, ⟨9, 9, 9, 9, 9, 9⟩⟩,
   Event.passKeyNotify ⟨0, 4, 6100⟩ 482913,
   Event.disconnect ⟨0, 7000, 7000⟩,
   Event.loopPass ⟨⟨0, false, []⟩, 0, 0, 65001, 65001, 65001⟩]

/-- The state after `abandonedPairing` from the initial state: the window is
closed and `currentDisplayedPasskey` still holds the passkey. -/
def passkeyHeld : State where
  deviceConnected := false
  oldDeviceConnected := false
  currentDisplayedPasskey := 482913
  pairingModeActive := false
  allowNewPairing := false
  buttonPressStartTime := 0
  pairingModeStartTime := 5001
  lastDisplayUpdate := 65001

/-- The digit index of a `setChar` lies on the display, which has the digits
0 to 7; every other effect passes. -/
def Effect.indexOk : Effect → Bool
  | Effect.setChar digit _ _ => decide (digit ≤ 7)
  | _ => true

/-! ## Lemmas on the display functions -/

theorem prefixLoop_isDisplay (pfx : String) (segPos : Nat) :
    ∀ (i charAtPos : Nat) (e : Effect), e ∈ prefixLoop pfx segPos i charAtPos →
      e.isDisplay = true := by
  intro i
  induction i with
  | zero => intro c e h; simp [prefixLoop] at h
  | succ k ih =>
    intro c e h
    unfold prefixLoop at h
    split at h
    · rcases List.mem_cons.mp h with h1 | h1
      · subst h1; rfl
      · exact ih _ e h1
    · simp at h

theorem textLoop_isDisplay (len : Nat) :
    ∀ (cs : List Char) (i segPos : Nat) (e : Effect), e ∈ textLoop len cs i segPos →
      e.isDisplay = true := by
  intro cs
  induction cs with
  | nil => intro i p e h; simp [textLoop] at h
  | cons c rest ih =>
    intro i p e h
    unfold textLoop at h
    rcases List.mem_cons.mp h with h1 | h1
    · subst h1; rfl
    · split at h1
      · rcases List.mem_singleton.mp h1 with h2
        subst h2; rfl
      · exact ih _ _ e h1

theorem displayString_isDisplay (s : State) (now : Nat) (str : String) (seg : Nat)
    (pfx : String) (e : Effect) (h : e ∈ (displayString s now str seg pfx).2) :
    e.isDisplay = true := by
  unfold displayString at h
  split at h
  · simp at h
  · simp only [List.mem_cons, List.mem_append] at h
    rcases h with h | h | h
    · subst h; rfl
    · split at h
      · exact prefixLoop_isDisplay _ _ _ _ e h
      · simp at h
    · exact textLoop_isDisplay _ _ _ _ e h

theorem displayClear_isDisplay (s : State) (e : Effect) (h : e ∈ (displayClear s).2) :
    e.isDisplay = true := by
  unfold displayClear at h
  split at h
  · simp at h; subst h; rfl
  · simp at h

/-- The state after `displayString` differs from the state before in
`lastDisplayUpdate` at most. -/
theorem displayString_state (s : State) (now : Nat) (str : String) (seg : Nat)
    (pfx : String) :
    ∃ t, (displayString s now str seg pfx).1 = { s with lastDisplayUpdate := t } := by
  unfold displayString
  split
  · exact ⟨s.lastDisplayUpdate, rfl⟩
  · exact ⟨now % U32, rfl⟩

/-- The state after `displayClear` differs from the state before in
`lastDisplayUpdate` at most. -/
theorem displayClear_state (s : State) :
    ∃ t, (displayClear s).1 = { s with lastDisplayUpdate := t } := by
  unfold displayClear
  split
  · exact ⟨0, rfl⟩
  · exact ⟨s.lastDisplayUpdate, rfl⟩

@[simp]
theorem displayString_allowNewPairing (s : State) (now : Nat) (str : String)
    (seg : Nat) (pfx : String) :
    (displayString s now str seg pfx).1.allowNewPairing = s.allowNewPairing := by
  obtain ⟨t, h⟩ := displayString_state s now str seg pfx
  rw [h]

@[simp]
theorem displayString_pairingModeActive (s : State) (now : Nat) (str : String)
    (seg : Nat) (pfx : String) :
    (displayString s now str seg pfx).1.pairingModeActive = s.pairingModeActive := by
  obtain ⟨t, h⟩ := displayString_state s now str seg pfx
  rw [h]

@[simp]
theorem displayString_deviceConnected (s : State) (now : Nat) (str : String)
    (seg : Nat) (pfx : String) :
    (displayString s now str seg pfx).1.deviceConnected = s.deviceConnected := by
  obtain ⟨t, h⟩ := displayString_state s now str seg pfx
  rw [h]

@[simp]
theorem displayString_currentDisplayedPasskey (s : State) (now : Nat) (str : String)
    (seg : Nat) (pfx : String) :
    (displayString s now str seg pfx).1.currentDisplayedPasskey = s.currentDisplayedPasskey := by
  obtain ⟨t, h⟩ := displayString_state s now str seg pfx
  rw [h]

@[simp]
theorem displayString_pairingModeStartTime (s : State) (now : Nat) (str : String)
    (seg : Nat) (pfx : String) :
    (displayString s now str seg pfx).1.pairingModeStartTime = s.pairingModeStartTime := by
  obtain ⟨t, h⟩ := displayString_state s now str seg pfx
  rw [h]

@[simp]
theorem displayClear_allowNewPairing (s : State) :
    (displayClear s).1.allowNewPairing = s.allowNewPairing := by
  obtain ⟨t, h⟩ := displayClear_state s
  rw [h]

@[simp]
theorem displayClear_pairingModeActive (s : State) :
    (displayClear s).1.pairingModeActive = s.pairingModeActive := by
  obtain ⟨t, h⟩ := displayClear_state s
  rw [h]

@[simp]
theorem displayClear_deviceConnected (s : State) :
    (displayClear s).1.deviceConnected = s.deviceConnected := by
  obtain ⟨t, h⟩ := displayClear_state s
  rw [h]

@[simp]
theorem displayClear_currentDisplayedPasskey (s : State) :
    (displayClear s).1.currentDisplayedPasskey = s.currentDisplayedPasskey := by
  obtain ⟨t, h⟩ := displayClear_state s
  rw [h]

@[simp]
theorem displayClear_pairingModeStartTime (s : State) :
    (displayClear s).1.pairingModeStartTime = s.pairingModeStartTime := by
  obtain ⟨t, h⟩ := displayClear_state s
  rw [h]

/-- No effect of `displayString` is anything but a write to the display. -/
theorem not_mem_displayString (s : State) (now : Nat) (str : String) (seg : Nat)
    (pfx : String) (e : Effect) (h : e.isDisplay = false) :
    e ∉ (displayString s now str seg pfx).2 := by
  intro hm
  rw [displayString_isDisplay s now str seg pfx e hm] at h
  exact Bool.noConfusion h

/-- No effect of `displayClear` is anything but a write to the display. -/
theorem not_mem_displayClear (s : State) (e : Effect) (h : e.isDisplay = false) :
    e ∉ (displayClear s).2 := by
  intro hm
  rw [displayClear_isDisplay s e hm] at h
  exact Bool.noConfusion h

@[simp]
theorem disconnect_not_mem_displayString (s : State) (now : Nat) (str : String)
    (seg : Nat) (pfx : String) (c : Nat) :
    Effect.disconnect c ∉ (displayString s now str seg pfx).2 :=
  not_mem_displayString s now str seg pfx (Effect.disconnect c) rfl

@[simp]
theorem disconnect_not_mem_displayClear (s : State) (c : Nat) :
    Effect.disconnect c ∉ (displayClear s).2 :=
  not_mem_displayClear s (Effect.disconnect c) rfl

@[simp]
theorem advertisingStop_not_mem_displayString (s : State) (now : Nat) (str : String)
    (seg : Nat) (pfx : String) :
    Effect.advertisingStop ∉ (displayString s now str seg pfx).2 :=
  not_mem_displayString s now str seg pfx Effect.advertisingStop rfl

@[simp]
theorem advertisingStart_not_mem_displayString (s : State) (now : Nat) (str : String)
    (seg : Nat) (pfx : String) :
    Effect.advertisingStart ∉ (displayString s now str seg pfx).2 :=
  not_mem_displayString s now str seg pfx Effect.advertisingStart rfl

/-! ## Connection gatekeeper: `onConnect` -/

/-- The accepting branch keeps the link: no disconnect, `deviceConnected`
set, encryption requested. -/
theorem onConnectAccept_spec (s : State) (env : ConnectEnv) (param : ConnectParam) :
    (∀ c, Effect.disconnect c ∉ (onConnectAccept s env param).2) ∧
    (onConnectAccept s env param).1.deviceConnected = true ∧
    Effect.setEncryption param.remote_bda ∈ (onConnectAccept s env param).2 := by
  refine ⟨?_, ?_, ?_⟩
  · intro c hc
    simp only [onConnectAccept, print, println, List.mem_append, List.mem_cons] at hc
    rcases hc with (h | h | h | h) | h
    · exact Effect.noConfusion h
    · exact Effect.noConfusion h
    · exact Effect.noConfusion h
    · simp at h
    · exact not_mem_displayString _ _ _ _ _ (Effect.disconnect c) rfl h
  · simp [onConnectAccept]
  · simp [onConnectAccept]

/-- The rejecting branch terminates the link: disconnect issued,
`deviceConnected` cleared, no encryption requested. -/
theorem onConnectReject_spec (s : State) (env : ConnectEnv) (param : ConnectParam) :
    Effect.disconnect param.conn_id ∈ (onConnectReject s env param).2 ∧
    (onConnectReject s env param).1.deviceConnected = false ∧
    (∀ a, Effect.setEncryption a ∉ (onConnectReject s env param).2) := by
  refine ⟨?_, ?_, ?_⟩
  · simp [onConnectReject]
  · simp [onConnectReject]
  · intro a ha
    simp only [onConnectReject, println, List.mem_append, List.mem_cons] at ha
    rcases ha with (h | h) | h
    · exact Effect.noConfusion h
    · exact not_mem_displayString _ _ _ _ _ (Effect.setEncryption a) rfl h
    · simp at h

/-- C1. A connection with a non-empty registry, closed pairing window, a
successful enumeration and a remote address that is none of the enumerated
bonded addresses is rejected: the link is disconnected, `deviceConnected` is
false afterwards and no encryption is requested. -/
theorem onConnect_rejects_unbonded (s : State) (env : ConnectEnv) (param : ConnectParam)
    (bonded : List BdAddr) (hnum : 0 < env.bondNum) (hclosed : s.allowNewPairing = false)
    (henum : env.bondList = some bonded) (hnot : ∀ a ∈ bonded, a ≠ param.remote_bda) :
    Effect.disconnect param.conn_id ∈ (onConnect s env param).2 ∧
    (onConnect s env param).1.deviceConnected = false ∧
    (∀ a, Effect.setEncryption a ∉ (onConnect s env param).2) := by
  have hany : bonded.any (fun a => decide (a = param.remote_bda)) = false := by
    rw [List.any_eq_false]
    intro a ha
    simpa using hnot a ha
  have hrej := onConnectReject_spec s env param
  have hcond : 0 < env.bondNum ∧ s.allowNewPairing = false := ⟨hnum, hclosed⟩
  simp only [onConnect, hcond, henum, hany, and_self, if_true]
  refine ⟨?_, hrej.2.1, ?_⟩
  · exact List.mem_cons_of_mem _ hrej.1
  · intro a ha
    rcases List.mem_cons.mp ha with h | h
    · simp [println] at h
    · exact hrej.2.2 a h

/-- C1, at a concrete connection: one bonded device, an unknown peer. -/
theorem onConnect_rejects_unbonded_witness :
    Effect.disconnect 3 ∈
        (onConnect State.initial ⟨1, some [⟨1, 2, 3, 4, 5, 6⟩], true, 100⟩
          ⟨3, ⟨9, 9, 9, 9, 9, 9⟩⟩).2 ∧
      (onConnect State.initial ⟨1, some [⟨1, 2, 3, 4, 5, 6⟩], true, 100⟩
          ⟨3, ⟨9, 9, 9, 9, 9, 9⟩⟩).1.deviceConnected = false ∧
      (∀ a, Effect.setEncryption a ∉
        (onConnect State.initial ⟨1, some [⟨1, 2, 3, 4, 5, 6⟩], true, 100⟩
          ⟨3, ⟨9, 9, 9, 9, 9, 9⟩⟩).2) :=
  onConnect_rejects_unbonded State.initial ⟨1, some [⟨1, 2, 3, 4, 5, 6⟩], true, 100⟩
    ⟨3, ⟨9, 9, 9, 9, 9, 9⟩⟩ [⟨1, 2, 3, 4, 5, 6⟩] (by decide) rfl rfl (by decide)

/-- C2. With one bonded device and the pairing window closed, a connection
during which `heap_caps_malloc` returns a null pointer is accepted: the `if`
at line 220 has no `else`, so control reaches line 247. `deviceConnected` is
set, no disconnect is issued and encryption is requested for the peer. -/
theorem onConnect_allocation_failure_accepts :
    State.initial.allowNewPairing = false ∧
      (onConnect State.initial ⟨1, none, true, 100⟩
        ⟨3, ⟨9, 9, 9, 9, 9, 9⟩⟩).1.deviceConnected = true ∧
      (onConnect State.initial ⟨1, none, true, 100⟩
        ⟨3, ⟨9, 9, 9, 9, 9, 9⟩⟩).2.any Effect.isDisconnect = false ∧
      Effect.setEncryption ⟨9, 9, 9, 9, 9, 9⟩ ∈
        (onConnect State.initial ⟨1, none, true, 100⟩ ⟨3, ⟨9, 9, 9, 9, 9, 9⟩⟩).2 := by
  decide

/-! ## Connection gatekeeper: `onSecurityRequest` -/

/-- C3. `onSecurityRequest` returns `false` exactly when the registry is
non-empty and the pairing window is closed, and it issues a disconnect (of the
current link) in exactly those states; otherwise it returns `true`. The value
returned is a function of the bonded-device count and `allowNewPairing` alone:
no peer identity enters it. -/
theorem onSecurityRequest_rejects_iff (s : State) (env : SecurityEnv) :
    ((onSecurityRequest s env).1 = false ↔ (0 < env.bondNum ∧ s.allowNewPairing = false)) ∧
    ((onSecurityRequest s env).1 = true ↔ ¬(0 < env.bondNum ∧ s.allowNewPairing = false)) ∧
    (Effect.disconnect env.connId ∈ (onSecurityRequest s env).2.2 ↔
      (0 < env.bondNum ∧ s.allowNewPairing = false)) ∧
    ((∃ c, Effect.disconnect c ∈ (onSecurityRequest s env).2.2) ↔
      (0 < env.bondNum ∧ s.allowNewPairing = false)) ∧
    (onSecurityRequest s env).1 = !(decide (0 < env.bondNum) && !s.allowNewPairing) := by
  by_cases h : 0 < env.bondNum ∧ s.allowNewPairing = false
  · have h1 := h.1
    have h2 := h.2
    simp [onSecurityRequest, h1, h2, println]
  · have hb : (decide (0 < env.bondNum) && !s.allowNewPairing) = false := by
      rcases not_and_or.mp h with h1 | h1
      · simp [h1]
      · simp at h1; simp [h1]
    simp only [onSecurityRequest, h, if_false, hb]
    simp [println]

/-! ## Command dispatcher: `onWrite` -/

theorem knightRiderEffect_no_digitalWrite (pin : Nat) (level : Bool) :
    Effect.digitalWrite pin level ∉ knightRiderEffect := by
  intro h
  have hall : knightRiderEffect.all (fun e => !e.isDigitalWrite) = true := by decide
  have := List.all_eq_true.mp hall _ h
  simp [Effect.isDigitalWrite] at this

/-- C4. `onWrite` writes to an output pin only if the registry is non-empty and
the payload is exactly `"TRIGGER"`: the relay is driven `HIGH` in exactly those
calls, and in every other call (empty registry with any payload, or any other
payload) there is no `digitalWrite` at all. -/
theorem onWrite_relay_iff (s : State) (bondNum : Int) (value : String) :
    (Effect.digitalWrite RELAY_PIN true ∈ (onWrite s bondNum value).2 ↔
      (0 < bondNum ∧ value = "TRIGGER")) ∧
    ((∃ pin level, Effect.digitalWrite pin level ∈ (onWrite s bondNum value).2) ↔
      (0 < bondNum ∧ value = "TRIGGER")) := by
  by_cases hb : bondNum ≤ 0
  · have hn : ¬ (0 < bondNum) := not_lt.mpr hb
    simp [onWrite, hb, hn, println]
  · have hp : 0 < bondNum := not_le.mp hb
    by_cases he : value.data = []
    · have hne : value ≠ "TRIGGER" := by
        intro h
        rw [h] at he
        exact absurd he (by decide)
      simp [onWrite, hb, he, hne]
    · by_cases ht : value = "TRIGGER"
      · subst ht
        simp [onWrite, hb, hp, TRIGGER, println, print, knightRiderEffect_no_digitalWrite]
      · have ht2 : ¬ (value = TRIGGER) := ht
        simp [onWrite, hb, hp, he, ht, ht2, println, print]

/-- The effects of a `"TRIGGER"` write do not depend on the state or on the
count, as long as the registry is non-empty. -/
theorem onWrite_trigger_effects (s : State) (bondNum : Int) (h : 0 < bondNum) :
    onWrite s bondNum "TRIGGER" = (s, (onWrite State.initial 1 "TRIGGER").2) := by
  have hb : ¬ bondNum ≤ 0 := not_le.mpr h
  have he : "TRIGGER".data ≠ [] := by decide
  simp [onWrite, hb, he, TRIGGER]

/-- C8. With a non-empty registry a write of `"TRIGGER"` issues, apart from
serial output, exactly: relay `HIGH`; the visual acknowledgment sequence, in
which each of the columns 0 to 7 and then 6 down to 1 is lit, held for 40 ms
and switched off, and the display is cleared; relay `LOW`; the reply `"Command
executed"` set on the characteristic; and its notification, in this order.
Each of the relay writes, the reply and the notification occurs once, the
display is written between the two relay writes, and the relay is low when the
operation returns. -/
theorem onWrite_trigger_sequence (s : State) (bondNum : Int) (h : 0 < bondNum) :
    (onWrite s bondNum "TRIGGER").2.filter (fun e => !e.isSerial) =
      [Effect.digitalWrite RELAY_PIN true, Effect.setColumn 0 255, Effect.delay 40,
       Effect.setColumn 0 0, Effect.setColumn 1 255, Effect.delay 40, Effect.setColumn 1 0,
       Effect.setColumn 2 255, Effect.delay 40, Effect.setColumn 2 0, Effect.setColumn 3 255,
       Effect.delay 40, Effect.setColumn 3 0, Effect.setColumn 4 255, Effect.delay 40,
       Effect.setColumn 4 0, Effect.setColumn 5 255, Effect.delay 40, Effect.setColumn 5 0,
       Effect.setColumn 6 255, Effect.delay 40, Effect.setColumn 6 0, Effect.setColumn 7 255,
       Effect.delay 40, Effect.setColumn 7 0, Effect.setColumn 6 255, Effect.delay 40,
       Effect.setColumn 6 0, Effect.setColumn 5 255, Effect.delay 40, Effect.setColumn 5 0,
       Effect.setColumn 4 255, Effect.delay 40, Effect.setColumn 4 0, Effect.setColumn 3 255,
       Effect.delay 40, Effect.setColumn 3 0, Effect.setColumn 2 255, Effect.delay 40,
       Effect.setColumn 2 0, Effect.setColumn 1 255, Effect.delay 40, Effect.setColumn 1 0,
       Effect.clearMatrix, Effect.digitalWrite RELAY_PIN false,
       Effect.setValue "Command executed", Effect.notify] ∧
    (onWrite s bondNum "TRIGGER").2.count (Effect.digitalWrite RELAY_PIN true) = 1 ∧
    (onWrite s bondNum "TRIGGER").2.count (Effect.digitalWrite RELAY_PIN false) = 1 ∧
    (onWrite s bondNum "TRIGGER").2.countP Effect.isDigitalWrite = 2 ∧
    (onWrite s bondNum "TRIGGER").2.count (Effect.setValue "Command executed") = 1 ∧
    (onWrite s bondNum "TRIGGER").2.countP Effect.isSetValue = 1 ∧
    (onWrite s bondNum "TRIGGER").2.count Effect.notify = 1 ∧
    (onWrite s bondNum "TRIGGER").2.countP Effect.isDisplay = 29 ∧
    (∀ level, relayAfter level (onWrite s bondNum "TRIGGER").2 = false) ∧
    (onWrite s bondNum "TRIGGER").1 = s := by
  simp only [onWrite_trigger_effects s bondNum h]
  refine ⟨by decide, by decide, by decide, by decide, by decide, by decide, by decide,
    by decide, ?_, trivial⟩
  intro level
  cases level <;> decide

/-- C8, at a concrete write: two bonded devices. -/
theorem onWrite_trigger_sequence_witness :
    (0 : Int) < 2 ∧
      (onWrite State.initial 2 "TRIGGER").2.filter (fun e => !e.isSerial) =
        [Effect.digitalWrite RELAY_PIN true, Effect.setColumn 0 255, Effect.delay 40,
         Effect.setColumn 0 0, Effect.setColumn 1 255, Effect.delay 40, Effect.setColumn 1 0,
         Effect.setColumn 2 255, Effect.delay 40, Effect.setColumn 2 0, Effect.setColumn 3 255,
         Effect.delay 40, Effect.setColumn 3 0, Effect.setColumn 4 255, Effect.delay 40,
         Effect.setColumn 4 0, Effect.setColumn 5 255, Effect.delay 40, Effect.setColumn 5 0,
         Effect.setColumn 6 255, Effect.delay 40, Effect.setColumn 6 0, Effect.setColumn 7 255,
         Effect.delay 40, Effect.setColumn 7 0, Effect.setColumn 6 255, Effect.delay 40,
         Effect.setColumn 6 0, Effect.setColumn 5 255, Effect.delay 40, Effect.setColumn 5 0,
         Effect.setColumn 4 255, Effect.delay 40, Effect.setColumn 4 0, Effect.setColumn 3 255,
         Effect.delay 40, Effect.setColumn 3 0, Effect.setColumn 2 255, Effect.delay 40,
         Effect.setColumn 2 0, Effect.setColumn 1 255, Effect.delay 40, Effect.setColumn 1 0,
         Effect.clearMatrix, Effect.digitalWrite RELAY_PIN false,
         Effect.setValue "Command executed", Effect.notify] ∧
      relayAfter true (onWrite State.initial 2 "TRIGGER").2 = false :=
  ⟨by decide, (onWrite_trigger_sequence State.initial 2 (by decide)).1,
    (onWrite_trigger_sequence State.initial 2 (by decide)).2.2.2.2.2.2.2.2.1 true⟩

/-! ## Authentication coordinator: `onPassKeyNotify` -/

/-- C5. `onPassKeyNotify` issues a disconnect exactly when the registry is
non-empty and the pairing window is closed. In that case the link that is
disconnected is the current one, the state (in particular
`currentDisplayedPasskey`) is unchanged and nothing is written to the display.
In every other state the passkey is stored in `currentDisplayedPasskey` and no
disconnect is issued. -/
theorem onPassKeyNotify_suppress_iff (s : State) (env : SecurityEnv) (pass_key : Nat)
    (hkey : pass_key < U32) :
    ((∃ c, Effect.disconnect c ∈ (onPassKeyNotify s env pass_key).2) ↔
      (0 < env.bondNum ∧ s.allowNewPairing = false)) ∧
    ((0 < env.bondNum ∧ s.allowNewPairing = false) →
      Effect.disconnect env.connId ∈ (onPassKeyNotify s env pass_key).2 ∧
      (onPassKeyNotify s env pass_key).1.currentDisplayedPasskey = s.currentDisplayedPasskey ∧
      (onPassKeyNotify s env pass_key).1 = s ∧
      (∀ e ∈ (onPassKeyNotify s env pass_key).2, e.isDisplay = false)) ∧
    (¬(0 < env.bondNum ∧ s.allowNewPairing = false) →
      (onPassKeyNotify s env pass_key).1.currentDisplayedPasskey = pass_key ∧
      (∀ c, Effect.disconnect c ∉ (onPassKeyNotify s env pass_key).2)) := by
  have hmod : pass_key % U32 = pass_key := Nat.mod_eq_of_lt hkey
  by_cases h : 0 < env.bondNum ∧ s.allowNewPairing = false
  · have h1 := h.1
    have h2 := h.2
    simp [onPassKeyNotify, h1, h2, println, Effect.isDisplay]
  · refine ⟨?_, fun hc => absurd hc h, fun _ => ?_⟩
    · simp only [onPassKeyNotify, h, if_false, iff_false, not_exists]
      intro c
      simp [println, print, displayNumber]
    · simp only [onPassKeyNotify, h, if_false]
      simp [println, print, displayNumber, hmod]

/-- C5, at a concrete call: one bonded device, window closed, passkey 482913. -/
theorem onPassKeyNotify_suppress_iff_witness :
    482913 < U32 ∧ (0 < (1 : Int) ∧ State.initial.allowNewPairing = false) ∧
      Effect.disconnect 4 ∈ (onPassKeyNotify State.initial ⟨1, 4, 100⟩ 482913).2 ∧
      (onPassKeyNotify State.initial ⟨1, 4, 100⟩ 482913).1.currentDisplayedPasskey = 0 :=
  ⟨by decide, ⟨by decide, rfl⟩,
    ((onPassKeyNotify_suppress_iff State.initial ⟨1, 4, 100⟩ 482913 (by decide)).2.1
      ⟨by decide, rfl⟩).1,
    ((onPassKeyNotify_suppress_iff State.initial ⟨1, 4, 100⟩ 482913 (by decide)).2.1
      ⟨by decide, rfl⟩).2.1⟩

/-- C6. With the pairing window open, `onPassKeyNotify 482913` decides Display
(no disconnect, the passkey is stored) but writes nothing to the display:
`currentDisplayedPasskey` is assigned at line 299 before `displayString` is
called at line 306, so the guard at line 109 holds and `displayString` returns
early. The same call with the window flag `pairingModeActive` cleared renders
`P5.482913`. -/
theorem onPassKeyNotify_window_open_not_rendered :
    (onPassKeyNotify windowOpenState ⟨0, 4, 2000⟩ 482913).1.currentDisplayedPasskey = 482913 ∧
      (onPassKeyNotify windowOpenState ⟨0, 4, 2000⟩ 482913).2.any Effect.isDisconnect = false ∧
      (onPassKeyNotify windowOpenState ⟨0, 4, 2000⟩ 482913).2.any Effect.isDisplay = false ∧
      (onPassKeyNotify windowOpenState ⟨1, 4, 2000⟩ 482913).2.any Effect.isDisplay = false ∧
      (onPassKeyNotify { windowOpenState with pairingModeActive := false }
          ⟨0, 4, 2000⟩ 482913).2.filter Effect.isDisplay =
        [Effect.clearMatrix, Effect.setChar 7 'P' false, Effect.setChar 6 '5' true,
         Effect.setChar 5 '4' false, Effect.setChar 4 '8' false, Effect.setChar 3 '2' false,
         Effect.setChar 2 '9' false, Effect.setChar 1 '1' false,
         Effect.setChar 0 '3' false] := by
  decide

/-! ## Connection gatekeeper: accepted links -/

/-- C7. A connection is accepted when the registry is empty, or the pairing
window is open, or the remote address is one of the enumerated bonded
addresses: no disconnect is issued, `deviceConnected` is true afterwards and
encryption is requested for the peer. -/
theorem onConnect_accepts (s : State) (env : ConnectEnv) (param : ConnectParam)
    (h : env.bondNum = 0 ∨ s.allowNewPairing = true ∨
      ∃ bonded, env.bondList = some bonded ∧ param.remote_bda ∈ bonded) :
    (∀ c, Effect.disconnect c ∉ (onConnect s env param).2) ∧
    (onConnect s env param).1.deviceConnected = true ∧
    Effect.setEncryption param.remote_bda ∈ (onConnect s env param).2 := by
  have hacc := onConnectAccept_spec s env param
  have key : onConnect s env param =
      ((onConnectAccept s env param).1,
        println "Device connected. Starting secure connection process..." ::
          (onConnectAccept s env param).2) := by
    unfold onConnect
    split
    · rename_i hc
      rcases h with h | h | ⟨bonded, hl, hm⟩
      · rw [h] at hc
        exact absurd hc.1 (lt_irrefl 0)
      · rw [h] at hc
        exact absurd hc.2 (by decide)
      · have hany : bonded.any (fun a => decide (a = param.remote_bda)) = true := by
          rw [List.any_eq_true]
          exact ⟨param.remote_bda, hm, by simp⟩
        simp [hl, hany]
    · rfl
  rw [key]
  refine ⟨?_, hacc.2.1, List.mem_cons_of_mem _ hacc.2.2⟩
  intro c hc
  rcases List.mem_cons.mp hc with h1 | h1
  · simp [println] at h1
  · exact hacc.1 c h1

/-- C7, at a concrete connection: a bonded peer reconnects with the window
closed. -/
theorem onConnect_accepts_witness :
    (∀ c, Effect.disconnect c ∉
        (onConnect State.initial ⟨1, some [⟨1, 2, 3, 4, 5, 6⟩], true, 100⟩
          ⟨3, ⟨1, 2, 3, 4, 5, 6⟩⟩).2) ∧
      (onConnect State.initial ⟨1, some [⟨1, 2, 3, 4, 5, 6⟩], true, 100⟩
          ⟨3, ⟨1, 2, 3, 4, 5, 6⟩⟩).1.deviceConnected = true ∧
      Effect.setEncryption ⟨1, 2, 3, 4, 5, 6⟩ ∈
        (onConnect State.initial ⟨1, some [⟨1, 2, 3, 4, 5, 6⟩], true, 100⟩
          ⟨3, ⟨1, 2, 3, 4, 5, 6⟩⟩).2 :=
  onConnect_accepts State.initial ⟨1, some [⟨1, 2, 3, 4, 5, 6⟩], true, 100⟩
    ⟨3, ⟨1, 2, 3, 4, 5, 6⟩⟩
    (Or.inr (Or.inr ⟨[⟨1, 2, 3, 4, 5, 6⟩], rfl, List.mem_singleton.mpr rfl⟩))

/-! ## Pairing window -/

/-- The state after `showCountdown` differs from the state before in
`lastDisplayUpdate` at most. -/
theorem showCountdown_state (s : State) (dispNow secs last : Nat) (pfx : String) :
    ∃ t, (showCountdown s dispNow secs last pfx).1 = { s with lastDisplayUpdate := t } := by
  unfold showCountdown
  split
  · exact displayString_state s _ _ _ _
  · exact ⟨s.lastDisplayUpdate, rfl⟩

/-- The state after the `while` of the gesture detector differs from the state
before in `lastDisplayUpdate` at most. -/
theorem waitLoop_state (rd st : Nat) (pfx : String) :
    ∀ (polls : List Poll) (s : State) (last : Nat) (r : Bool) (s' : State)
      (es : List Effect), waitLoop rd st pfx polls s last = some (r, s', es) →
      ∃ t, s' = { s with lastDisplayUpdate := t } := by
  intro polls
  induction polls with
  | nil => intro s last r s' es h; simp [waitLoop] at h
  | cons p rest ih =>
    intro s last r s' es h
    unfold waitLoop at h
    obtain ⟨t1, h1⟩ := showCountdown_state s p.dispNow (sub32 rd (sub32 p.now st) / 1000) last pfx
    by_cases hp : p.pin = true
    · simp only [hp, if_true] at h
      by_cases hd : rd ≤ sub32 p.now st
      · simp only [hd, if_true, Option.some.injEq, Prod.mk.injEq] at h
        obtain ⟨t2, h2⟩ := displayClear_state
          (showCountdown s p.dispNow (sub32 rd (sub32 p.now st) / 1000) last pfx).1
        refine ⟨t2, ?_⟩
        rw [← h.2.1, h2, h1]
      · simp only [hd, if_false] at h
        cases hrec : waitLoop rd st pfx rest
            (showCountdown s p.dispNow (sub32 rd (sub32 p.now st) / 1000) last pfx).1
            (showCountdown s p.dispNow (sub32 rd (sub32 p.now st) / 1000) last pfx).2.2 with
        | none => rw [hrec] at h; exact Option.noConfusion h
        | some v =>
          obtain ⟨r', s'', es'⟩ := v
          rw [hrec] at h
          simp only [Option.some.injEq, Prod.mk.injEq] at h
          obtain ⟨t3, h3⟩ := ih _ _ _ _ _ hrec
          refine ⟨t3, ?_⟩
          rw [← h.2.1, h3, h1]
    · simp only [hp, Bool.false_eq_true, if_false, Option.some.injEq, Prod.mk.injEq] at h
      obtain ⟨t2, h2⟩ := displayClear_state s
      exact ⟨t2, by rw [← h.2.1, h2]⟩

/-- The state after the gesture detector differs from the state before in
`lastDisplayUpdate` at most. -/
theorem waitForButtonPressDuration_state (s : State) (inp : GestureInput) (d : Nat)
    (pfx : String) (r : Bool) (s' : State) (es : List Effect)
    (h : waitForButtonPressDuration s inp d pfx = some (r, s', es)) :
    ∃ t, s' = { s with lastDisplayUpdate := t } := by
  unfold waitForButtonPressDuration at h
  by_cases hp : inp.entryPin = true
  · simp only [hp, if_true] at h
    cases hrec : waitLoop (d % U32) (inp.startTime % U32) pfx inp.polls s (d % U32 / 1000) with
    | none => rw [hrec] at h; exact Option.noConfusion h
    | some v =>
      obtain ⟨r', s'', es'⟩ := v
      rw [hrec] at h
      simp only [Option.some.injEq, Prod.mk.injEq] at h
      obtain ⟨t, ht⟩ := waitLoop_state _ _ _ _ _ _ _ _ _ hrec
      exact ⟨t, by rw [← h.2.1, ht]⟩
  · simp only [hp, Bool.false_eq_true, if_false, Option.some.injEq, Prod.mk.injEq] at h
    exact ⟨s.lastDisplayUpdate, by rw [← h.2.1]⟩

theorem WindowMove.of_display (s s' : State) (h : ∃ t, s' = { s with lastDisplayUpdate := t }) :
    WindowMove s s' := by
  obtain ⟨t, rfl⟩ := h
  exact Or.inl ⟨rfl, rfl⟩

theorem WindowMove.trans (a b c : State) (h1 : WindowMove a b) (h2 : WindowMove b c) :
    WindowMove a c := by
  unfold WindowMove at *
  rcases h2 with ⟨h2a, h2b⟩ | h2 | h2
  · rw [h2a, h2b]; exact h1
  · exact Or.inr (Or.inl h2)
  · exact Or.inr (Or.inr h2)

theorem onConnect_window (s : State) (env : ConnectEnv) (param : ConnectParam) :
    (onConnect s env param).1.pairingModeActive = s.pairingModeActive ∧
    (onConnect s env param).1.allowNewPairing = s.allowNewPairing := by
  unfold onConnect
  split
  · split
    · dsimp only
      split <;> simp [onConnectAccept, onConnectReject]
    · simp [onConnectAccept]
  · simp [onConnectAccept]

theorem onDisconnect_window (s : State) (env : DisconnectEnv) :
    (onDisconnect s env).1.pairingModeActive = s.pairingModeActive ∧
    (onDisconnect s env).1.allowNewPairing = s.allowNewPairing := by
  unfold onDisconnect
  split <;> simp

theorem onSecurityRequest_window (s : State) (env : SecurityEnv) :
    (onSecurityRequest s env).2.1.pairingModeActive = s.pairingModeActive ∧
    (onSecurityRequest s env).2.1.allowNewPairing = s.allowNewPairing := by
  unfold onSecurityRequest
  split <;> simp

theorem onPassKeyNotify_window (s : State) (env : SecurityEnv) (pass_key : Nat) :
    (onPassKeyNotify s env pass_key).1.pairingModeActive = s.pairingModeActive ∧
    (onPassKeyNotify s env pass_key).1.allowNewPairing = s.allowNewPairing := by
  unfold onPassKeyNotify
  split <;> simp [displayNumber]

theorem reportOutcome_state (s : State) (env : SecurityEnv) (auth_cmpl : AuthCmpl) :
    ∃ t, (reportOutcome s env auth_cmpl).1 = { s with lastDisplayUpdate := t } := by
  unfold reportOutcome
  split
  · exact displayString_state s _ _ _ _
  · exact displayString_state s _ _ _ _

@[simp]
theorem reportOutcome_pairingModeActive (s : State) (env : SecurityEnv)
    (auth_cmpl : AuthCmpl) :
    (reportOutcome s env auth_cmpl).1.pairingModeActive = s.pairingModeActive := by
  obtain ⟨t, h⟩ := reportOutcome_state s env auth_cmpl
  rw [h]

@[simp]
theorem reportOutcome_allowNewPairing (s : State) (env : SecurityEnv)
    (auth_cmpl : AuthCmpl) :
    (reportOutcome s env auth_cmpl).1.allowNewPairing = s.allowNewPairing := by
  obtain ⟨t, h⟩ := reportOutcome_state s env auth_cmpl
  rw [h]

@[simp]
theorem reportOutcome_pairingModeStartTime (s : State) (env : SecurityEnv)
    (auth_cmpl : AuthCmpl) :
    (reportOutcome s env auth_cmpl).1.pairingModeStartTime = s.pairingModeStartTime := by
  obtain ⟨t, h⟩ := reportOutcome_state s env auth_cmpl
  rw [h]

@[simp]
theorem reportOutcome_currentDisplayedPasskey (s : State) (env : SecurityEnv)
    (auth_cmpl : AuthCmpl) :
    (reportOutcome s env auth_cmpl).1.currentDisplayedPasskey = s.currentDisplayedPasskey := by
  obtain ⟨t, h⟩ := reportOutcome_state s env auth_cmpl
  rw [h]

@[simp]
theorem advertisingStop_not_mem_reportOutcome (s : State) (env : SecurityEnv)
    (auth_cmpl : AuthCmpl) : Effect.advertisingStop ∉ (reportOutcome s env auth_cmpl).2 := by
  unfold reportOutcome
  split <;> simp [println, print]

/-- The window fields after `onAuthenticationComplete`: both flags cleared when
the window was open, both untouched otherwise; the start time is never
written; advertising is stopped exactly when the window was open. -/
theorem onAuthenticationComplete_window (s : State) (env : SecurityEnv)
    (auth_cmpl : AuthCmpl) :
    (onAuthenticationComplete s env auth_cmpl).1.pairingModeActive = false ∧
    (onAuthenticationComplete s env auth_cmpl).1.allowNewPairing =
      (if s.pairingModeActive = true then false else s.allowNewPairing) ∧
    (onAuthenticationComplete s env auth_cmpl).1.pairingModeStartTime =
      s.pairingModeStartTime ∧
    (Effect.advertisingStop ∈ (onAuthenticationComplete s env auth_cmpl).2 ↔
      s.pairingModeActive = true) := by
  unfold onAuthenticationComplete
  by_cases ha : s.pairingModeActive = true
  · simp [ha]
  · have ha2 : s.pairingModeActive = false := by simpa using ha
    simp [ha2]

theorem loopTimeout_window (s : State) (env : LoopEnv) :
    WindowMove s (loopTimeout s env).1 := by
  unfold loopTimeout
  split
  · exact Or.inr (Or.inr (by simp))
  · exact Or.inl ⟨rfl, rfl⟩

theorem openWindow_window (s : State) (env : LoopEnv) :
    (openWindow s env).1.pairingModeActive = true ∧
    (openWindow s env).1.allowNewPairing = true := by
  simp [openWindow]

theorem loopActivation_window (s : State) (env : LoopEnv) (s' : State) (es : List Effect)
    (h : loopActivation s env = some (s', es)) : WindowMove s s' := by
  unfold loopActivation at h
  by_cases hp : s.pairingModeActive = false
  · simp only [hp, if_true] at h
    cases hg : waitForButtonPressDuration s env.gesture PAIRING_PRESS_DURATION_MILLIS "PAIr" with
    | none => rw [hg] at h; exact Option.noConfusion h
    | some v =>
      obtain ⟨r, s1, e1⟩ := v
      rw [hg] at h
      cases r with
      | true =>
        simp only [Option.some.injEq, Prod.mk.injEq] at h
        rw [← h.1]
        exact Or.inr (Or.inl (openWindow_window s1 env))
      | false =>
        simp only [Option.some.injEq, Prod.mk.injEq] at h
        rw [← h.1]
        exact WindowMove.of_display s s1 (waitForButtonPressDuration_state _ _ _ _ _ _ _ hg)
  · simp only [hp, if_false, Bool.true_eq_false, Option.some.injEq, Prod.mk.injEq] at h
    rw [← h.1]
    exact Or.inl ⟨rfl, rfl⟩

theorem loopConnectionTracking_window (s : State) :
    WindowMove s (loopConnectionTracking s).1 := by
  unfold loopConnectionTracking
  split <;> exact Or.inl ⟨rfl, rfl⟩

theorem loopDisplayTimeout_window (s : State) (env : LoopEnv) :
    WindowMove s (loopDisplayTimeout s env).1 := by
  unfold loopDisplayTimeout
  split
  · exact WindowMove.of_display s _ (displayClear_state s)
  · exact Or.inl ⟨rfl, rfl⟩

theorem loop_window (s : State) (env : LoopEnv) (s' : State) (es : List Effect)
    (h : loop s env = some (s', es)) : WindowMove s s' := by
  unfold loop at h
  cases ha : loopActivation s env with
  | none => rw [ha] at h; exact Option.noConfusion h
  | some v =>
    obtain ⟨s1, e1⟩ := v
    rw [ha] at h
    simp only [Option.some.injEq, Prod.mk.injEq] at h
    rw [← h.1]
    exact WindowMove.trans _ _ _ (loopActivation_window s env s1 e1 ha)
      (WindowMove.trans _ _ _ (loopTimeout_window s1 env)
        (WindowMove.trans _ _ _ (loopConnectionTracking_window _)
          (loopDisplayTimeout_window _ env)))

/-- Every operation moves the two window flags together. -/
theorem Step.windowMove (s s' : State) (h : Step s s') : WindowMove s s' := by
  cases h with
  | connect env param => exact Or.inl (onConnect_window s env param)
  | disconnect env => exact Or.inl (onDisconnect_window s env)
  | securityRequest env => exact Or.inl (onSecurityRequest_window s env)
  | passKeyNotify env k => exact Or.inl (onPassKeyNotify_window s env k)
  | authenticationComplete env a =>
    have hw := onAuthenticationComplete_window s env a
    by_cases ha : s.pairingModeActive = true
    · refine Or.inr (Or.inr ⟨hw.1, ?_⟩)
      rw [hw.2.1, if_pos ha]
    · have ha2 : s.pairingModeActive = false := by simpa using ha
      refine Or.inl ⟨by rw [hw.1, ha2], ?_⟩
      rw [hw.2.1, if_neg ha]
  | write n v =>
    refine Or.inl ?_
    unfold onWrite
    split
    · exact ⟨rfl, rfl⟩
    · split
      · split <;> exact ⟨rfl, rfl⟩
      · exact ⟨rfl, rfl⟩
  | gesture inp d pfx r _ es hg =>
    exact WindowMove.of_display s s' (waitForButtonPressDuration_state _ _ _ _ _ _ _ hg)
  | activation env _ es ha => exact loopActivation_window s env s' es ha
  | timeout env => exact loopTimeout_window s env
  | connectionTracking => exact loopConnectionTracking_window s
  | displayTimeout env => exact loopDisplayTimeout_window s env
  | loopPass env _ es hl => exact loop_window s env s' es hl

/-- In every reachable state the two window flags are equal. -/
theorem Reachable.flags_eq (s : State) (h : Reachable s) :
    s.pairingModeActive = s.allowNewPairing := by
  induction h with
  | initial => rfl
  | step a b _ hstep ih =>
    rcases Step.windowMove a b hstep with ⟨h1, h2⟩ | ⟨h1, h2⟩ | ⟨h1, h2⟩
    · rw [h1, h2]; exact ih
    · rw [h1, h2]
    · rw [h1, h2]

theorem windowOpened_reachable : Reachable windowOpened := by
  have h : ∃ es, loop State.initial heldFiveSeconds = some (windowOpened, es) := ⟨_, rfl⟩
  obtain ⟨es, hes⟩ := h
  exact Reachable.step _ _ Reachable.initial (Step.loopPass _ _ _ es hes)

theorem windowOpenState_reachable : Reachable windowOpenState := by
  have h : (onConnect windowOpened ⟨0, none, true, 6000⟩ ⟨4, ⟨9, 9, 9, 9, 9, 9⟩⟩).1 =
      windowOpenState := by decide
  rw [← h]
  exact Reachable.step _ _ windowOpened_reachable (Step.connect _ _ _)

/-- C9. In every state reachable from the initial state by the operations of
the program, `allowNewPairing` implies `pairingModeActive`. -/
theorem allowNewPairing_implies_pairingModeActive (s : State) (h : Reachable s)
    (hallow : s.allowNewPairing = true) : s.pairingModeActive = true := by
  rw [Reachable.flags_eq s h]
  exact hallow

/-- C9, at the state reached by holding the button for five seconds. -/
theorem allowNewPairing_implies_pairingModeActive_witness :
    Reachable windowOpened ∧ windowOpened.allowNewPairing = true ∧
      windowOpened.pairingModeActive = true :=
  ⟨windowOpened_reachable, rfl,
    allowNewPairing_implies_pairingModeActive windowOpened windowOpened_reachable rfl⟩

/-- C10. When the pairing window is open, `onAuthenticationComplete` clears
both window flags and stops advertising once, whatever the outcome; when it is
closed, neither flag changes and advertising is not stopped. The window fields
after the call are the same for every outcome reported. -/
theorem onAuthenticationComplete_resolved_path (s : State) (env : SecurityEnv)
    (auth_cmpl : AuthCmpl) :
    (s.pairingModeActive = true →
      (onAuthenticationComplete s env auth_cmpl).1.pairingModeActive = false ∧
      (onAuthenticationComplete s env auth_cmpl).1.allowNewPairing = false ∧
      Effect.advertisingStop ∈ (onAuthenticationComplete s env auth_cmpl).2 ∧
      (onAuthenticationComplete s env auth_cmpl).2.count Effect.advertisingStop = 1) ∧
    (s.pairingModeActive = false →
      (onAuthenticationComplete s env auth_cmpl).1.pairingModeActive = s.pairingModeActive ∧
      (onAuthenticationComplete s env auth_cmpl).1.allowNewPairing = s.allowNewPairing ∧
      Effect.advertisingStop ∉ (onAuthenticationComplete s env auth_cmpl).2) ∧
    (∀ (env' : SecurityEnv) (auth_cmpl' : AuthCmpl),
      (onAuthenticationComplete s env' auth_cmpl').1.pairingModeActive =
        (onAuthenticationComplete s env auth_cmpl).1.pairingModeActive ∧
      (onAuthenticationComplete s env' auth_cmpl').1.allowNewPairing =
        (onAuthenticationComplete s env auth_cmpl).1.allowNewPairing ∧
      (onAuthenticationComplete s env' auth_cmpl').1.pairingModeStartTime =
        (onAuthenticationComplete s env auth_cmpl).1.pairingModeStartTime) := by
  have hw := onAuthenticationComplete_window s env auth_cmpl
  refine ⟨fun ha => ⟨hw.1, ?_, hw.2.2.2.mpr ha, ?_⟩, fun ha => ⟨?_, ?_, ?_⟩, ?_⟩
  · rw [hw.2.1, if_pos ha]
  · have h0 : ∀ s0 : State, (reportOutcome s0 env auth_cmpl).2.count
        Effect.advertisingStop = 0 := fun s0 =>
      List.count_eq_zero.mpr (advertisingStop_not_mem_reportOutcome s0 env auth_cmpl)
    simp [onAuthenticationComplete, ha, List.count_cons, List.count_append, h0, println]
  · rw [hw.1, ha]
  · rw [hw.2.1, ha]; rfl
  · intro hm
    rw [hw.2.2.2.mp hm] at ha
    exact Bool.noConfusion ha
  · intro env' auth_cmpl'
    have hw' := onAuthenticationComplete_window s env' auth_cmpl'
    exact ⟨by rw [hw.1, hw'.1], by rw [hw.2.1, hw'.2.1], by rw [hw.2.2.1, hw'.2.2.1]⟩

/-- C10, at the open window of `windowOpenState`, for a failed attempt. -/
theorem onAuthenticationComplete_resolved_path_witness :
    windowOpenState.pairingModeActive = true ∧
      (onAuthenticationComplete windowOpenState ⟨0, 4, 7000⟩
        ⟨false, ⟨9, 9, 9, 9, 9, 9⟩, 5⟩).1.pairingModeActive = false ∧
      (onAuthenticationComplete windowOpenState ⟨0, 4, 7000⟩
        ⟨false, ⟨9, 9, 9, 9, 9, 9⟩, 5⟩).1.allowNewPairing = false ∧
      Effect.advertisingStop ∈ (onAuthenticationComplete windowOpenState ⟨0, 4, 7000⟩
        ⟨false, ⟨9, 9, 9, 9, 9, 9⟩, 5⟩).2 :=
  ⟨rfl,
    ((onAuthenticationComplete_resolved_path windowOpenState ⟨0, 4, 7000⟩
      ⟨false, ⟨9, 9, 9, 9, 9, 9⟩, 5⟩).1 rfl).1,
    ((onAuthenticationComplete_resolved_path windowOpenState ⟨0, 4, 7000⟩
      ⟨false, ⟨9, 9, 9, 9, 9, 9⟩, 5⟩).1 rfl).2.1,
    ((onAuthenticationComplete_resolved_path windowOpenState ⟨0, 4, 7000⟩
      ⟨false, ⟨9, 9, 9, 9, 9, 9⟩, 5⟩).1 rfl).2.2.1⟩

/-! ## Pairing window: the timeout path -/

/-- C12. One pass of the timeout check closes the window (both flags cleared,
advertising stopped once) exactly when `pairingModeActive` is true,
`deviceConnected` is false and the 32-bit unsigned difference between the clock
reading and `pairingModeStartTime` is at least 60000. In every other case the
check changes nothing and has no effect; in particular it does nothing while a
link is connected. -/
theorem loopTimeout_closes_iff (s : State) (env : LoopEnv) :
    (Effect.advertisingStop ∈ (loopTimeout s env).2 ↔
      (s.pairingModeActive = true ∧ s.deviceConnected = false ∧
        60000 ≤ sub32 env.timeoutNow s.pairingModeStartTime)) ∧
    ((s.pairingModeActive = true ∧ s.deviceConnected = false ∧
        60000 ≤ sub32 env.timeoutNow s.pairingModeStartTime) →
      (loopTimeout s env).1.pairingModeActive = false ∧
      (loopTimeout s env).1.allowNewPairing = false ∧
      (loopTimeout s env).2.count Effect.advertisingStop = 1) ∧
    (¬(s.pairingModeActive = true ∧ s.deviceConnected = false ∧
        60000 ≤ sub32 env.timeoutNow s.pairingModeStartTime) →
      loopTimeout s env = (s, [])) ∧
    (s.deviceConnected = true → loopTimeout s env = (s, [])) := by
  have h0 : ∀ (s0 : State) (now : Nat) (str : String),
      (displayString s0 now str 0 "").2.count Effect.advertisingStop = 0 := fun s0 now str =>
    List.count_eq_zero.mpr (advertisingStop_not_mem_displayString s0 now str 0 "")
  by_cases h : s.pairingModeActive = true ∧ s.deviceConnected = false ∧
      60000 ≤ sub32 env.timeoutNow s.pairingModeStartTime
  · refine ⟨?_, ?_, fun hn => absurd h hn, ?_⟩
    · simp [loopTimeout, PAIRING_WINDOW_TIMEOUT_MILLIS, h, println]
    · intro _
      simp [loopTimeout, PAIRING_WINDOW_TIMEOUT_MILLIS, h, println, List.count_cons, h0]
    · intro hc
      rw [h.2.1] at hc
      exact Bool.noConfusion hc
  · have hr : loopTimeout s env = (s, []) := by
      simp only [loopTimeout, PAIRING_WINDOW_TIMEOUT_MILLIS, h, if_false]
    refine ⟨?_, fun hc => absurd hc h, fun _ => hr, fun _ => hr⟩
    rw [hr]
    simp [h]

/-- C12, at the open window of `windowOpened`, checked 60000 ms after it was
opened. -/
theorem loopTimeout_closes_iff_witness :
    (windowOpened.pairingModeActive = true ∧ windowOpened.deviceConnected = false ∧
        60000 ≤ sub32 65001 windowOpened.pairingModeStartTime) ∧
      (loopTimeout windowOpened ⟨⟨0, false, []⟩, 0, 0, 65001, 65001, 0⟩).1.pairingModeActive =
        false ∧
      (loopTimeout windowOpened ⟨⟨0, false, []⟩, 0, 0, 65001, 65001, 0⟩).1.allowNewPairing =
        false :=
  ⟨by decide,
    ((loopTimeout_closes_iff windowOpened ⟨⟨0, false, []⟩, 0, 0, 65001, 65001, 0⟩).2.1
      (by decide)).1,
    ((loopTimeout_closes_iff windowOpened ⟨⟨0, false, []⟩, 0, 0, 65001, 65001, 0⟩).2.1
      (by decide)).2.1⟩

/-! ## Authentication coordinator: `onAuthenticationComplete` -/

theorem disconnect_mem_reportOutcome (s : State) (env : SecurityEnv) (auth_cmpl : AuthCmpl)
    (c : Nat) :
    Effect.disconnect c ∈ (reportOutcome s env auth_cmpl).2 ↔
      (auth_cmpl.success = false ∧ c = env.connId) := by
  unfold reportOutcome
  by_cases hs : auth_cmpl.success = true
  · simp [hs, println, print]
  · have hs2 : auth_cmpl.success = false := by simpa using hs
    simp [hs2, println, print]

/-- The link that `onAuthenticationComplete` disconnects: the current one, on
failure only. -/
theorem disconnect_mem_onAuthenticationComplete (s : State) (env : SecurityEnv)
    (auth_cmpl : AuthCmpl) (c : Nat) :
    Effect.disconnect c ∈ (onAuthenticationComplete s env auth_cmpl).2 ↔
      (auth_cmpl.success = false ∧ c = env.connId) := by
  unfold onAuthenticationComplete
  dsimp only
  split <;> simp [disconnect_mem_reportOutcome, println]

/-- C17. `onAuthenticationComplete` issues a disconnect (of the current link)
exactly when the outcome is failure. For every outcome `pairingModeStartTime`
is left unchanged and `pairingModeActive` is false afterwards; a failed attempt
made while the window was open clears `allowNewPairing` and stops
advertising. -/
theorem onAuthenticationComplete_disconnect_iff_failure (s : State) (env : SecurityEnv)
    (auth_cmpl : AuthCmpl) :
    ((∃ c, Effect.disconnect c ∈ (onAuthenticationComplete s env auth_cmpl).2) ↔
      auth_cmpl.success = false) ∧
    (Effect.disconnect env.connId ∈ (onAuthenticationComplete s env auth_cmpl).2 ↔
      auth_cmpl.success = false) ∧
    (onAuthenticationComplete s env auth_cmpl).1.pairingModeStartTime =
      s.pairingModeStartTime ∧
    (onAuthenticationComplete s env auth_cmpl).1.pairingModeActive = false ∧
    (auth_cmpl.success = false → s.pairingModeActive = true →
      (onAuthenticationComplete s env auth_cmpl).1.allowNewPairing = false ∧
      Effect.advertisingStop ∈ (onAuthenticationComplete s env auth_cmpl).2) := by
  have hw := onAuthenticationComplete_window s env auth_cmpl
  refine ⟨?_, ?_, hw.2.2.1, hw.1, fun _ ha => ⟨?_, hw.2.2.2.mpr ha⟩⟩
  · constructor
    · rintro ⟨c, hc⟩
      exact ((disconnect_mem_onAuthenticationComplete s env auth_cmpl c).mp hc).1
    · intro hf
      exact ⟨env.connId, (disconnect_mem_onAuthenticationComplete s env auth_cmpl _).mpr
        ⟨hf, rfl⟩⟩
  · rw [disconnect_mem_onAuthenticationComplete]
    exact ⟨fun h => h.1, fun h => ⟨h, rfl⟩⟩
  · rw [hw.2.1, if_pos ha]

/-- C17, at the open window of `windowOpenState`, for a failed attempt. -/
theorem onAuthenticationComplete_disconnect_iff_failure_witness :
    Effect.disconnect 4 ∈ (onAuthenticationComplete windowOpenState ⟨0, 4, 7000⟩
        ⟨false, ⟨9, 9, 9, 9, 9, 9⟩, 5⟩).2 ∧
      (onAuthenticationComplete windowOpenState ⟨0, 4, 7000⟩
        ⟨false, ⟨9, 9, 9, 9, 9, 9⟩, 5⟩).1.pairingModeStartTime = 5001 ∧
      (onAuthenticationComplete windowOpenState ⟨0, 4, 7000⟩
        ⟨false, ⟨9, 9, 9, 9, 9, 9⟩, 5⟩).1.allowNewPairing = false :=
  ⟨(onAuthenticationComplete_disconnect_iff_failure windowOpenState ⟨0, 4, 7000⟩
      ⟨false, ⟨9, 9, 9, 9, 9, 9⟩, 5⟩).2.1.mpr rfl,
    (onAuthenticationComplete_disconnect_iff_failure windowOpenState ⟨0, 4, 7000⟩
      ⟨false, ⟨9, 9, 9, 9, 9, 9⟩, 5⟩).2.2.1,
    ((onAuthenticationComplete_disconnect_iff_failure windowOpenState ⟨0, 4, 7000⟩
      ⟨false, ⟨9, 9, 9, 9, 9, 9⟩, 5⟩).2.2.2.2 rfl rfl).1⟩

/-- What a second application of `onAuthenticationComplete` does, in every
state: it changes none of `pairingModeActive`, `allowNewPairing`,
`pairingModeStartTime` and issues no advertising stop; `pairingModeActive` is
false after the first. When `allowNewPairing` implies `pairingModeActive` in
the starting state, both flags are false after one application and after
two. -/
theorem onAuthenticationComplete_twice (s : State) (env1 env2 : SecurityEnv)
    (a1 a2 : AuthCmpl) :
    (onAuthenticationComplete (onAuthenticationComplete s env1 a1).1 env2 a2).1.pairingModeActive =
      (onAuthenticationComplete s env1 a1).1.pairingModeActive ∧
    (onAuthenticationComplete (onAuthenticationComplete s env1 a1).1 env2 a2).1.allowNewPairing =
      (onAuthenticationComplete s env1 a1).1.allowNewPairing ∧
    (onAuthenticationComplete (onAuthenticationComplete s env1 a1).1 env2
        a2).1.pairingModeStartTime =
      (onAuthenticationComplete s env1 a1).1.pairingModeStartTime ∧
    Effect.advertisingStop ∉
      (onAuthenticationComplete (onAuthenticationComplete s env1 a1).1 env2 a2).2 ∧
    (onAuthenticationComplete s env1 a1).1.pairingModeActive = false ∧
    ((s.allowNewPairing = true → s.pairingModeActive = true) →
      (onAuthenticationComplete s env1 a1).1.allowNewPairing = false ∧
      (onAuthenticationComplete (onAuthenticationComplete s env1 a1).1 env2
        a2).1.pairingModeActive = false ∧
      (onAuthenticationComplete (onAuthenticationComplete s env1 a1).1 env2
        a2).1.allowNewPairing = false) := by
  have h1 := onAuthenticationComplete_window s env1 a1
  have h2 := onAuthenticationComplete_window (onAuthenticationComplete s env1 a1).1 env2 a2
  have hidle : ¬ ((onAuthenticationComplete s env1 a1).1.pairingModeActive = true) := by
    rw [h1.1]; exact Bool.noConfusion
  have hallow2 : (onAuthenticationComplete (onAuthenticationComplete s env1 a1).1 env2
      a2).1.allowNewPairing = (onAuthenticationComplete s env1 a1).1.allowNewPairing := by
    rw [h2.2.1, if_neg hidle]
  refine ⟨by rw [h2.1, h1.1], hallow2, h2.2.2.1, fun hm => hidle (h2.2.2.2.mp hm), h1.1, ?_⟩
  intro hinv
  have hfirst : (onAuthenticationComplete s env1 a1).1.allowNewPairing = false := by
    rw [h1.2.1]
    by_cases ha : s.pairingModeActive = true
    · rw [if_pos ha]
    · rw [if_neg ha]
      by_cases hal : s.allowNewPairing = true
      · exact absurd (hinv hal) ha
      · simpa using hal
  exact ⟨hfirst, h2.1, by rw [hallow2, hfirst]⟩

/-- C14. For every reachable state and every pair of authentication outcomes,
applying `onAuthenticationComplete` twice in succession leaves
`pairingModeActive`, `allowNewPairing` and `pairingModeStartTime` equal to what
a single application leaves, namely both flags false and the start time
untouched; the second application changes none of the three fields and issues
no advertising stop. -/
theorem onAuthenticationComplete_idempotent (s : State) (h : Reachable s)
    (env1 env2 : SecurityEnv) (a1 a2 : AuthCmpl) :
    ((onAuthenticationComplete s env1 a1).1.pairingModeActive = false ∧
      (onAuthenticationComplete s env1 a1).1.allowNewPairing = false ∧
      (onAuthenticationComplete s env1 a1).1.pairingModeStartTime = s.pairingModeStartTime) ∧
    ((onAuthenticationComplete (onAuthenticationComplete s env1 a1).1 env2
        a2).1.pairingModeActive = false ∧
      (onAuthenticationComplete (onAuthenticationComplete s env1 a1).1 env2
        a2).1.allowNewPairing = false ∧
      (onAuthenticationComplete (onAuthenticationComplete s env1 a1).1 env2
        a2).1.pairingModeStartTime = s.pairingModeStartTime) ∧
    ((onAuthenticationComplete (onAuthenticationComplete s env1 a1).1 env2
        a2).1.pairingModeActive =
        (onAuthenticationComplete s env1 a1).1.pairingModeActive ∧
      (onAuthenticationComplete (onAuthenticationComplete s env1 a1).1 env2
        a2).1.allowNewPairing =
        (onAuthenticationComplete s env1 a1).1.allowNewPairing ∧
      (onAuthenticationComplete (onAuthenticationComplete s env1 a1).1 env2
        a2).1.pairingModeStartTime =
        (onAuthenticationComplete s env1 a1).1.pairingModeStartTime) ∧
    Effect.advertisingStop ∉
      (onAuthenticationComplete (onAuthenticationComplete s env1 a1).1 env2 a2).2 := by
  have hinv : s.allowNewPairing = true → s.pairingModeActive = true := by
    intro ha
    rw [Reachable.flags_eq s h]
    exact ha
  have ht := onAuthenticationComplete_twice s env1 env2 a1 a2
  have hidle := ht.2.2.2.2.2 hinv
  have h1 := onAuthenticationComplete_window s env1 a1
  refine ⟨⟨ht.2.2.2.2.1, hidle.1, h1.2.2.1⟩, ⟨hidle.2.1, hidle.2.2, ?_⟩,
    ⟨ht.1, ht.2.1, ht.2.2.1⟩, ht.2.2.2.1⟩
  rw [ht.2.2.1, h1.2.2.1]

/-- C14, at the reachable open window of `windowOpenState`: a success followed
by a duplicate failure report. -/
theorem onAuthenticationComplete_idempotent_witness :
    Reachable windowOpenState ∧ windowOpenState.allowNewPairing = true ∧
      (onAuthenticationComplete windowOpenState ⟨1, 4, 7000⟩
        ⟨true, ⟨9, 9, 9, 9, 9, 9⟩, 0⟩).1.allowNewPairing = false ∧
      (onAuthenticationComplete (onAuthenticationComplete windowOpenState ⟨1, 4, 7000⟩
        ⟨true, ⟨9, 9, 9, 9, 9, 9⟩, 0⟩).1 ⟨1, 4, 7100⟩
        ⟨false, ⟨9, 9, 9, 9, 9, 9⟩, 5⟩).1.allowNewPairing = false ∧
      Effect.advertisingStop ∉
        (onAuthenticationComplete (onAuthenticationComplete windowOpenState ⟨1, 4, 7000⟩
          ⟨true, ⟨9, 9, 9, 9, 9, 9⟩, 0⟩).1 ⟨1, 4, 7100⟩
          ⟨false, ⟨9, 9, 9, 9, 9, 9⟩, 5⟩).2 :=
  ⟨windowOpenState_reachable, rfl,
    (onAuthenticationComplete_idempotent windowOpenState windowOpenState_reachable
      ⟨1, 4, 7000⟩ ⟨1, 4, 7100⟩ ⟨true, ⟨9, 9, 9, 9, 9, 9⟩, 0⟩
      ⟨false, ⟨9, 9, 9, 9, 9, 9⟩, 5⟩).1.2.1,
    (onAuthenticationComplete_idempotent windowOpenState windowOpenState_reachable
      ⟨1, 4, 7000⟩ ⟨1, 4, 7100⟩ ⟨true, ⟨9, 9, 9, 9, 9, 9⟩, 0⟩
      ⟨false, ⟨9, 9, 9, 9, 9, 9⟩, 5⟩).2.1.2.1,
    (onAuthenticationComplete_idempotent windowOpenState windowOpenState_reachable
      ⟨1, 4, 7000⟩ ⟨1, 4, 7100⟩ ⟨true, ⟨9, 9, 9, 9, 9, 9⟩, 0⟩
      ⟨false, ⟨9, 9, 9, 9, 9, 9⟩, 5⟩).2.2.2⟩

/-! ## Command dispatcher: replies -/

/-- C16, as stated, fails for the empty payload: with one bonded device a
write of the empty string passes neither branch of `if (!value.empty())`, so
`onWrite` sets no value and sends no notification. -/
theorem onWrite_empty_payload_no_reply :
    (onWrite State.initial 1 "").2 = [] ∧
      (onWrite State.initial 1 "").2.count Effect.notify = 0 := by
  decide

theorem received_no_reply (value : String) :
    (print "Received command: " ::
      value.data.map (fun c => print (String.singleton c)) ++ [println ""]).filter
        Effect.isReply = [] := by
  rw [List.filter_eq_nil_iff]
  intro e he
  simp only [List.mem_cons, List.mem_append, List.mem_map, List.mem_singleton] at he
  rcases he with (h | ⟨c, _, h⟩) | h | h
  · subst h; simp [print, Effect.isReply]
  · subst h; simp [print, Effect.isReply]
  · subst h; simp [println, Effect.isReply]
  · simp at h

/-- C16, amended. The replies of `onWrite` (values set on the characteristic
and notifications, in order) are: the no-bonded-devices error string and one
notification when the bonded-device count is not positive; `"Command
executed"` and one notification for `"TRIGGER"` with a positive count;
`"Unknown command received"` and one notification for every other non-empty
payload with a positive count; for the empty payload with a positive count
`onWrite` has no effect at all. -/
theorem onWrite_reply (s : State) (bondNum : Int) (value : String) :
    (bondNum ≤ 0 →
      (onWrite s bondNum value).2.filter Effect.isReply =
        [Effect.setValue "Security error: No bonded devices", Effect.notify]) ∧
    (0 < bondNum → value = "TRIGGER" →
      (onWrite s bondNum value).2.filter Effect.isReply =
        [Effect.setValue "Command executed", Effect.notify]) ∧
    (0 < bondNum → value ≠ "TRIGGER" → value ≠ "" →
      (onWrite s bondNum value).2.filter Effect.isReply =
        [Effect.setValue "Unknown command received", Effect.notify]) ∧
    (0 < bondNum → value = "" → (onWrite s bondNum value).2 = []) := by
  refine ⟨?_, ?_, ?_, ?_⟩
  · intro hb
    simp [onWrite, hb, println, Effect.isReply]
  · intro hb ht
    subst ht
    simp only [onWrite_trigger_effects s bondNum hb]
    decide
  · intro hb ht he
    have hb2 : ¬ bondNum ≤ 0 := not_le.mpr hb
    have he2 : value.data ≠ [] := by
      intro h
      apply he
      cases value
      simp_all
    have ht2 : ¬ (value = TRIGGER) := ht
    simp only [onWrite, hb2, if_false, ne_eq, he2, not_false_eq_true, if_true, ht2]
    rw [List.filter_append, received_no_reply]
    simp [println, Effect.isReply]
  · intro hb he
    have hb2 : ¬ bondNum ≤ 0 := not_le.mpr hb
    subst he
    simp [onWrite, hb2]

/-- C16, amended, at a write of `"OPEN"` with two bonded devices. -/
theorem onWrite_reply_witness :
    (0 : Int) < 2 ∧ "OPEN" ≠ "TRIGGER" ∧ "OPEN" ≠ "" ∧
      (onWrite State.initial 2 "OPEN").2.filter Effect.isReply =
        [Effect.setValue "Unknown command received", Effect.notify] :=
  ⟨by decide, by decide, by decide,
    (onWrite_reply State.initial 2 "OPEN").2.2.1 (by decide) (by decide) (by decide)⟩

/-! ## What each operation leaves untouched -/

theorem keeps_refl (s : State) : Keeps s s := ⟨rfl, rfl, rfl, rfl⟩

theorem keeps_trans (a b c : State) (h1 : Keeps a b) (h2 : Keeps b c) : Keeps a c := by
  obtain ⟨a1, a2, a3, a4⟩ := h1
  obtain ⟨b1, b2, b3, b4⟩ := h2
  exact ⟨b1.trans a1, b2.trans a2, b3.trans a3, b4.trans a4⟩

theorem keeps_of_display (s s' : State) (h : ∃ t, s' = { s with lastDisplayUpdate := t }) :
    Keeps s s' := by
  obtain ⟨t, rfl⟩ := h
  exact ⟨rfl, rfl, rfl, rfl⟩

theorem keeps_openSince (T : Nat) (s s' : State) (h : Keeps s s') (ho : OpenSince T s) :
    OpenSince T s' := by
  obtain ⟨_, h2, h3, h4⟩ := h
  exact ⟨h2.trans ho.1, h3.trans ho.2.1, h4.trans ho.2.2⟩

theorem onConnect_keeps (s : State) (env : ConnectEnv) (param : ConnectParam) :
    Keeps s (onConnect s env param).1 := by
  unfold onConnect
  split
  · split
    · dsimp only
      split <;> simp [Keeps, onConnectAccept, onConnectReject]
    · simp [Keeps, onConnectAccept]
  · simp [Keeps, onConnectAccept]

theorem onDisconnect_keeps (s : State) (env : DisconnectEnv) :
    Keeps s (onDisconnect s env).1 := by
  unfold onDisconnect
  split <;> simp [Keeps]

theorem onSecurityRequest_keeps (s : State) (env : SecurityEnv) :
    Keeps s (onSecurityRequest s env).2.1 := by
  unfold onSecurityRequest
  split <;> simp [Keeps]

theorem onWrite_state (s : State) (bondNum : Int) (value : String) :
    (onWrite s bondNum value).1 = s := by
  unfold onWrite
  split
  · rfl
  · split
    · split <;> rfl
    · rfl

/-- What `onPassKeyNotify` does to the state: nothing when it suppresses;
otherwise it stores the passkey and at most updates `lastDisplayUpdate`. -/
theorem onPassKeyNotify_state (s : State) (env : SecurityEnv) (pass_key : Nat) :
    ((0 < env.bondNum ∧ s.allowNewPairing = false) → (onPassKeyNotify s env pass_key).1 = s) ∧
    (¬(0 < env.bondNum ∧ s.allowNewPairing = false) →
      ∃ t, (onPassKeyNotify s env pass_key).1 =
        { s with currentDisplayedPasskey := pass_key % U32, lastDisplayUpdate := t }) := by
  constructor
  · intro h
    simp only [onPassKeyNotify, h, and_self, if_true]
  · intro h
    obtain ⟨t, ht⟩ := displayString_state { s with currentDisplayedPasskey := pass_key % U32 }
      env.now (toString (pass_key % U32)) 2 "P5"
    refine ⟨t, ?_⟩
    simp only [onPassKeyNotify, h, if_false, displayNumber]
    exact ht

theorem loopConnectionTracking_keeps (s : State) : Keeps s (loopConnectionTracking s).1 := by
  unfold loopConnectionTracking
  split <;> exact ⟨rfl, rfl, rfl, rfl⟩

theorem loopDisplayTimeout_keeps (s : State) (env : LoopEnv) :
    Keeps s (loopDisplayTimeout s env).1 := by
  unfold loopDisplayTimeout
  split
  · exact keeps_of_display s _ (displayClear_state s)
  · exact keeps_refl s

/-- The timeout check either does nothing or closes the window; it never writes
the passkey or the start time. -/
theorem loopTimeout_cases (s : State) (env : LoopEnv) :
    (¬(s.pairingModeActive = true ∧ s.deviceConnected = false ∧
        PAIRING_WINDOW_TIMEOUT_MILLIS ≤ sub32 env.timeoutNow s.pairingModeStartTime) ∧
      loopTimeout s env = (s, [])) ∨
    ((s.pairingModeActive = true ∧ s.deviceConnected = false ∧
        PAIRING_WINDOW_TIMEOUT_MILLIS ≤ sub32 env.timeoutNow s.pairingModeStartTime) ∧
      (loopTimeout s env).1.pairingModeActive = false ∧
      (loopTimeout s env).1.allowNewPairing = false ∧
      (loopTimeout s env).1.currentDisplayedPasskey = s.currentDisplayedPasskey ∧
      (loopTimeout s env).1.pairingModeStartTime = s.pairingModeStartTime) := by
  by_cases h : s.pairingModeActive = true ∧ s.deviceConnected = false ∧
      PAIRING_WINDOW_TIMEOUT_MILLIS ≤ sub32 env.timeoutNow s.pairingModeStartTime
  · refine Or.inr ⟨h, ?_⟩
    simp [loopTimeout, h]
  · refine Or.inl ⟨h, ?_⟩
    simp only [loopTimeout, h, if_false]

theorem openWindow_fields (s : State) (env : LoopEnv) :
    (openWindow s env).1.pairingModeActive = true ∧
    (openWindow s env).1.allowNewPairing = true ∧
    (openWindow s env).1.pairingModeStartTime = env.activateNow % U32 ∧
    (openWindow s env).1.currentDisplayedPasskey = s.currentDisplayedPasskey ∧
    Effect.advertisingStart ∈ (openWindow s env).2 := by
  simp [openWindow]

/-- The activation step does nothing while the window is open. -/
theorem loopActivation_active (s : State) (env : LoopEnv) (h : s.pairingModeActive = true) :
    loopActivation s env = some (s, []) := by
  simp [loopActivation, h]

/-- The activation step with the window closed, according to what the gesture
detector returns. -/
theorem loopActivation_idle (s : State) (env : LoopEnv) (h : s.pairingModeActive = false) :
    loopActivation s env =
      match waitForButtonPressDuration s env.gesture PAIRING_PRESS_DURATION_MILLIS "PAIr" with
      | none => none
      | some (true, s1, e1) => some ((openWindow s1 env).1, e1 ++ (openWindow s1 env).2)
      | some (false, s1, e1) => some (s1, e1) := by
  simp only [loopActivation, h, if_true]

/-- The activation step either keeps the window fields and the passkey, or it
opens a closed window at the clock reading `activateNow`. -/
theorem loopActivation_cases (s : State) (env : LoopEnv) (s' : State) (es : List Effect)
    (h : loopActivation s env = some (s', es)) :
    Keeps s s' ∨
    (s.pairingModeActive = false ∧ s'.pairingModeActive = true ∧ s'.allowNewPairing = true ∧
      s'.pairingModeStartTime = env.activateNow % U32 ∧
      s'.currentDisplayedPasskey = s.currentDisplayedPasskey) := by
  by_cases hp : s.pairingModeActive = true
  · rw [loopActivation_active s env hp] at h
    simp only [Option.some.injEq, Prod.mk.injEq] at h
    rw [← h.1]
    exact Or.inl (keeps_refl s)
  · have hp2 : s.pairingModeActive = false := by simpa using hp
    rw [loopActivation_idle s env hp2] at h
    cases hg : waitForButtonPressDuration s env.gesture PAIRING_PRESS_DURATION_MILLIS "PAIr" with
    | none => rw [hg] at h; exact Option.noConfusion h
    | some v =>
      obtain ⟨r, s1, e1⟩ := v
      rw [hg] at h
      have hk : Keeps s s1 :=
        keeps_of_display s s1 (waitForButtonPressDuration_state _ _ _ _ _ _ _ hg)
      cases r with
      | true =>
        simp only [Option.some.injEq, Prod.mk.injEq] at h
        rw [← h.1]
        have ho := openWindow_fields s1 env
        exact Or.inr ⟨hp2, ho.1, ho.2.1, ho.2.2.1, ho.2.2.2.1.trans hk.1⟩
      | false =>
        simp only [Option.some.injEq, Prod.mk.injEq] at h
        rw [← h.1]
        exact Or.inl hk

/-- The state component of an operation that returned. -/
theorem fst_of_some_eq {x : State × List Effect} {s' : State} {es : List Effect}
    (h : some x = some (s', es)) : x.1 = s' := by
  cases h
  rfl

theorem sub32_mod_right (a b : Nat) : sub32 a (b % U32) = sub32 a b := by
  unfold sub32
  rw [Nat.mod_mod]

/-- A pass of `loop` is its activation step followed by the timeout check and
by steps that keep the window fields and the passkey. -/
theorem loop_decompose (s : State) (env : LoopEnv) (s' : State) (es : List Effect)
    (h : loop s env = some (s', es)) :
    ∃ s1 e1, loopActivation s env = some (s1, e1) ∧ Keeps (loopTimeout s1 env).1 s' := by
  unfold loop at h
  cases ha : loopActivation s env with
  | none => rw [ha] at h; exact Option.noConfusion h
  | some v =>
    obtain ⟨s1, e1⟩ := v
    rw [ha] at h
    simp only [Option.some.injEq, Prod.mk.injEq] at h
    refine ⟨s1, e1, rfl, ?_⟩
    rw [← h.1]
    exact keeps_trans _ _ _ (loopConnectionTracking_keeps _) (loopDisplayTimeout_keeps _ env)

theorem loopActivation_passkey (s : State) (env : LoopEnv) (s' : State) (es : List Effect)
    (h : loopActivation s env = some (s', es)) :
    s'.currentDisplayedPasskey = s.currentDisplayedPasskey := by
  rcases loopActivation_cases s env s' es h with hk | hk
  · exact hk.1
  · exact hk.2.2.2.2

theorem loopTimeout_passkey (s : State) (env : LoopEnv) :
    (loopTimeout s env).1.currentDisplayedPasskey = s.currentDisplayedPasskey := by
  rcases loopTimeout_cases s env with ⟨_, h⟩ | ⟨_, h⟩
  · rw [h]
  · exact h.2.2.1

theorem loop_passkey (s : State) (env : LoopEnv) (s' : State) (es : List Effect)
    (h : loop s env = some (s', es)) :
    s'.currentDisplayedPasskey = s.currentDisplayedPasskey := by
  obtain ⟨s1, e1, ha, hk⟩ := loop_decompose s env s' es h
  rw [hk.1, loopTimeout_passkey, loopActivation_passkey s env s1 e1 ha]

/-- While the window opened at `T` is open, a timeout check whose clock reading
is less than 60000 ms after `T` does nothing. -/
theorem loopTimeout_openSince (T : Nat) (s : State) (env : LoopEnv) (ho : OpenSince T s)
    (hearly : sub32 env.timeoutNow T < PAIRING_WINDOW_TIMEOUT_MILLIS) :
    loopTimeout s env = (s, []) := by
  rcases loopTimeout_cases s env with ⟨_, h⟩ | ⟨hc, _⟩
  · exact h
  · rw [ho.2.2, sub32_mod_right] at hc
    exact absurd hc.2.2 (not_le.mpr hearly)

/-- The state after an event that returns. -/
theorem Event.run_gesture (s : State) (inp : GestureInput) (d : Nat) (pfx : String)
    (s' : State) (es : List Effect) (h : (Event.gesture inp d pfx).run s = some (s', es)) :
    ∃ r, waitForButtonPressDuration s inp d pfx = some (r, s', es) := by
  simp only [Event.run] at h
  cases hg : waitForButtonPressDuration s inp d pfx with
  | none => rw [hg] at h; exact Option.noConfusion h
  | some v =>
    obtain ⟨r, s1, e1⟩ := v
    rw [hg] at h
    simp only [Option.some.injEq, Prod.mk.injEq] at h
    exact ⟨r, by rw [h.1, h.2]⟩

/-- An event other than `onAuthenticationComplete` leaves a window opened at
`T` open, with the same start time, unless it makes the timeout check at a
clock reading 60000 ms or more after `T`. -/
theorem Event.run_openSince (T : Nat) (s : State) (e : Event) (s' : State)
    (es : List Effect) (ho : OpenSince T s) (hna : e.isAuthenticationComplete = false)
    (hrun : e.run s = some (s', es))
    (hearly : ∀ t, e.timeoutReading = some t → sub32 t T < PAIRING_WINDOW_TIMEOUT_MILLIS) :
    OpenSince T s' := by
  cases e with
  | connect env param =>
    simp only [Event.run] at hrun
    rw [← fst_of_some_eq hrun]
    exact keeps_openSince T _ _ (onConnect_keeps s env param) ho
  | disconnect env =>
    simp only [Event.run] at hrun
    rw [← fst_of_some_eq hrun]
    exact keeps_openSince T _ _ (onDisconnect_keeps s env) ho
  | securityRequest env =>
    simp only [Event.run] at hrun
    rw [← fst_of_some_eq hrun]
    exact keeps_openSince T _ _ (onSecurityRequest_keeps s env) ho
  | passKeyNotify env k =>
    simp only [Event.run] at hrun
    rw [← fst_of_some_eq hrun]
    have hw := onPassKeyNotify_window s env k
    have hst := onPassKeyNotify_state s env k
    refine ⟨hw.1.trans ho.1, hw.2.trans ho.2.1, ?_⟩
    by_cases hc : 0 < env.bondNum ∧ s.allowNewPairing = false
    · rw [hst.1 hc]; exact ho.2.2
    · obtain ⟨t, ht⟩ := hst.2 hc
      rw [ht]; exact ho.2.2
  | authenticationComplete env a => exact absurd hna (by simp [Event.isAuthenticationComplete])
  | write n v =>
    simp only [Event.run] at hrun
    rw [← fst_of_some_eq hrun, onWrite_state]
    exact ho
  | gesture inp d pfx =>
    obtain ⟨r, hg⟩ := Event.run_gesture s inp d pfx s' es hrun
    exact keeps_openSince T _ _
      (keeps_of_display s s' (waitForButtonPressDuration_state _ _ _ _ _ _ _ hg)) ho
  | activation env =>
    simp only [Event.run] at hrun
    rw [loopActivation_active s env ho.1] at hrun
    simp only [Option.some.injEq, Prod.mk.injEq] at hrun
    rw [← hrun.1]
    exact ho
  | timeout env =>
    simp only [Event.run] at hrun
    rw [← fst_of_some_eq hrun, loopTimeout_openSince T s env ho (hearly env.timeoutNow rfl)]
    exact ho
  | connectionTracking =>
    simp only [Event.run] at hrun
    rw [← fst_of_some_eq hrun]
    exact keeps_openSince T _ _ (loopConnectionTracking_keeps s) ho
  | displayTimeout env =>
    simp only [Event.run] at hrun
    rw [← fst_of_some_eq hrun]
    exact keeps_openSince T _ _ (loopDisplayTimeout_keeps s env) ho
  | loopPass env =>
    simp only [Event.run] at hrun
    obtain ⟨s1, e1, ha, hk⟩ := loop_decompose s env s' es hrun
    rw [loopActivation_active s env ho.1] at ha
    simp only [Option.some.injEq, Prod.mk.injEq] at ha
    rw [← ha.1, loopTimeout_openSince T s env ho (hearly env.timeoutNow rfl)] at hk
    exact keeps_openSince T _ _ hk ho

/-- A run of events without `onAuthenticationComplete`, whose timeout checks
all read the clock less than 60000 ms after `T`, leaves a window opened at `T`
open. -/
theorem runEvents_openSince (T : Nat) :
    ∀ (evs : List Event) (s s' : State), OpenSince T s →
      (∀ e ∈ evs, e.isAuthenticationComplete = false) →
      (∀ e ∈ evs, ∀ t, e.timeoutReading = some t →
        sub32 t T < PAIRING_WINDOW_TIMEOUT_MILLIS) →
      runEvents s evs = some s' → OpenSince T s' := by
  intro evs
  induction evs with
  | nil =>
    intro s s' ho _ _ hrun
    simp only [runEvents, Option.some.injEq] at hrun
    rw [← hrun]; exact ho
  | cons e rest ih =>
    intro s s' ho hna hearly hrun
    simp only [runEvents] at hrun
    cases he : e.run s with
    | none => rw [he] at hrun; exact Option.noConfusion hrun
    | some r =>
      obtain ⟨s1, e1⟩ := r
      rw [he] at hrun
      have ho1 : OpenSince T s1 :=
        Event.run_openSince T s e s1 e1 ho (hna e (List.mem_cons_self _ _)) he
          (hearly e (List.mem_cons_self _ _))
      exact ih s1 s' ho1 (fun x hx => hna x (List.mem_cons_of_mem _ hx))
        (fun x hx => hearly x (List.mem_cons_of_mem _ hx)) hrun

/-! ## Pairing window: opening and staying open -/

/-- With the window open, a pass of `loop` returns, and its state is that of
the timeout check up to fields the window does not use. -/
theorem loop_active (s : State) (env : LoopEnv) (h : s.pairingModeActive = true) :
    ∃ s' es, loop s env = some (s', es) ∧ Keeps (loopTimeout s env).1 s' := by
  unfold loop
  rw [loopActivation_active s env h]
  exact ⟨_, _, rfl,
    keeps_trans _ _ _ (loopConnectionTracking_keeps _) (loopDisplayTimeout_keeps _ env)⟩

/-- A pass of `loop` from a closed window that ends with the window open has
opened it at the clock reading `activateNow`. -/
theorem loop_opened (s0 : State) (env0 : LoopEnv) (s1 : State) (es1 : List Effect)
    (hidle : s0.pairingModeActive = false) (hpass : loop s0 env0 = some (s1, es1))
    (hopened : s1.pairingModeActive = true) : OpenSince env0.activateNow s1 := by
  obtain ⟨sa, ea, ha, hk⟩ := loop_decompose s0 env0 s1 es1 hpass
  have hact : (loopTimeout sa env0).1.pairingModeActive = true := by
    rw [← hk.2.1]; exact hopened
  rcases loopTimeout_cases sa env0 with ⟨_, ht⟩ | ⟨_, ht⟩
  · rw [ht] at hk hact
    rcases loopActivation_cases s0 env0 sa ea ha with hka | hka
    · have : sa.pairingModeActive = false := hka.2.1.trans hidle
      rw [this] at hact
      exact Bool.noConfusion hact
    · exact keeps_openSince _ _ _ hk ⟨hka.2.1, hka.2.2.1, hka.2.2.2.1⟩
  · rw [ht.1] at hact
    exact Bool.noConfusion hact

/-- C11. Let a pass of `loop` open the pairing window at clock reading `T`
(the reading `activateNow` of that pass). After any sequence of later events
that contains no `onAuthenticationComplete` and whose timeout checks all read
the clock at a `t` with `t - T < 60000` (32-bit unsigned difference), both
window flags are still true and the start time is still `T`. An event other
than `onAuthenticationComplete` that then closes the window is one that makes
the timeout check, at a reading `t` with `t - T >= 60000`. -/
theorem window_not_closed_early (s0 : State) (env0 : LoopEnv) (s1 : State)
    (es1 : List Effect) (evs : List Event) (s2 : State)
    (hidle : s0.pairingModeActive = false)
    (hpass : loop s0 env0 = some (s1, es1))
    (hopened : s1.pairingModeActive = true)
    (hnoauth : ∀ e ∈ evs, e.isAuthenticationComplete = false)
    (hearly : ∀ e ∈ evs, ∀ t, e.timeoutReading = some t →
      sub32 t env0.activateNow < 60000)
    (hrun : runEvents s1 evs = some s2) :
    (s1.allowNewPairing = true ∧ s1.pairingModeStartTime = env0.activateNow % U32) ∧
    (s2.pairingModeActive = true ∧ s2.allowNewPairing = true ∧
      s2.pairingModeStartTime = env0.activateNow % U32) ∧
    (∀ (e : Event) (s3 : State) (es3 : List Effect),
      e.isAuthenticationComplete = false → e.run s2 = some (s3, es3) →
      ¬(s3.pairingModeActive = true ∧ s3.allowNewPairing = true) →
      ∃ t, e.timeoutReading = some t ∧ 60000 ≤ sub32 t env0.activateNow) := by
  have ho1 := loop_opened s0 env0 s1 es1 hidle hpass hopened
  have ho2 : OpenSince env0.activateNow s2 :=
    runEvents_openSince env0.activateNow evs s1 s2 ho1 hnoauth hearly hrun
  refine ⟨⟨ho1.2.1, ho1.2.2⟩, ho2, ?_⟩
  intro e s3 es3 hna he hclosed
  by_contra hcon
  have hall : ∀ t, e.timeoutReading = some t →
      sub32 t env0.activateNow < PAIRING_WINDOW_TIMEOUT_MILLIS := by
    intro t ht
    by_contra hlt
    exact hcon ⟨t, ht, not_lt.mp hlt⟩
  have ho3 := Event.run_openSince env0.activateNow s2 e s3 es3 ho2 hna he hall
  exact hclosed ⟨ho3.1, ho3.2.1⟩

/-- C11, at the window opened by `heldFiveSeconds` at clock reading 5001: after
a connection and a pass of `loop` checking the timeout at 61000 it is open. -/
theorem window_not_closed_early_witness :
    State.initial.pairingModeActive = false ∧ windowOpened.pairingModeActive = true ∧
      runEvents windowOpened connectThenPass = some windowStillOpen ∧
      windowStillOpen.pairingModeActive = true ∧ windowStillOpen.allowNewPairing = true ∧
      windowStillOpen.pairingModeStartTime = 5001 := by
  obtain ⟨es, hes⟩ : ∃ es, loop State.initial heldFiveSeconds = some (windowOpened, es) :=
    ⟨_, rfl⟩
  have hrun : runEvents windowOpened connectThenPass = some windowStillOpen := by decide
  have hna : ∀ e ∈ connectThenPass, e.isAuthenticationComplete = false := by decide
  have hearly : ∀ e ∈ connectThenPass, ∀ t, e.timeoutReading = some t →
      sub32 t heldFiveSeconds.activateNow < 60000 := by
    intro e he t ht
    simp only [connectThenPass, List.mem_cons, List.mem_singleton, List.not_mem_nil,
      or_false] at he
    rcases he with rfl | rfl
    · simp [Event.timeoutReading] at ht
    · simp only [Event.timeoutReading, Option.some.injEq] at ht
      subst ht
      decide
  have h := window_not_closed_early State.initial heldFiveSeconds windowOpened es
    connectThenPass windowStillOpen rfl hes rfl hna hearly hrun
  exact ⟨rfl, rfl, hrun, h.2.1.1, h.2.1.2.1, h.2.1.2.2⟩

/-- C18. With the window closed, when the gesture detector reports success for
the 5000 ms hold, the activation step starts advertising and leaves
`pairingModeActive` and `allowNewPairing` true and `pairingModeStartTime` equal
to the clock reading `activateNow` (a 32-bit value). With the window open the
activation step reads no input and has no effect, and the whole pass of `loop`
returns with `pairingModeStartTime` unchanged. -/
theorem loopActivation_opens_window (s : State) (env : LoopEnv) :
    PAIRING_PRESS_DURATION_MILLIS = 5000 ∧
    (∀ (s1 : State) (e1 : List Effect), s.pairingModeActive = false →
      waitForButtonPressDuration s env.gesture 5000 "PAIr" = some (true, s1, e1) →
      ∃ s' es, loopActivation s env = some (s', es) ∧
        Effect.advertisingStart ∈ es ∧
        s'.pairingModeActive = true ∧ s'.allowNewPairing = true ∧
        s'.pairingModeStartTime = env.activateNow % U32) ∧
    (s.pairingModeActive = true →
      (∀ env' : LoopEnv, loopActivation s env' = some (s, [])) ∧
      ∃ s' es, loop s env = some (s', es) ∧
        s'.pairingModeStartTime = s.pairingModeStartTime) := by
  refine ⟨rfl, ?_, ?_⟩
  · intro s1 e1 hidle hg
    have ho := openWindow_fields s1 env
    refine ⟨(openWindow s1 env).1, e1 ++ (openWindow s1 env).2, ?_,
      List.mem_append_right _ ho.2.2.2.2, ho.1, ho.2.1, ho.2.2.1⟩
    rw [loopActivation_idle s env hidle]
    have hg2 : waitForButtonPressDuration s env.gesture PAIRING_PRESS_DURATION_MILLIS "PAIr" =
        some (true, s1, e1) := hg
    rw [hg2]
  · intro hact
    refine ⟨fun env' => loopActivation_active s env' hact, ?_⟩
    obtain ⟨s', es, hl, hk⟩ := loop_active s env hact
    refine ⟨s', es, hl, ?_⟩
    rw [hk.2.2.2]
    rcases loopTimeout_cases s env with ⟨_, ht⟩ | ⟨_, ht⟩
    · rw [ht]
    · exact ht.2.2.2

/-- C18, at the pass `heldFiveSeconds` from the initial state. -/
theorem loopActivation_opens_window_witness :
    State.initial.pairingModeActive = false ∧
      ∃ s' es, loopActivation State.initial heldFiveSeconds = some (s', es) ∧
        Effect.advertisingStart ∈ es ∧
        s'.pairingModeActive = true ∧ s'.allowNewPairing = true ∧
        s'.pairingModeStartTime = heldFiveSeconds.activateNow % U32 := by
  obtain ⟨s1, e1, hv⟩ : ∃ (s1 : State) (e1 : List Effect),
      waitForButtonPressDuration State.initial heldFiveSeconds.gesture 5000 "PAIr" =
        some (true, s1, e1) := ⟨_, _, rfl⟩
  exact ⟨rfl,
    (loopActivation_opens_window State.initial heldFiveSeconds).2.1 s1 e1 rfl hv⟩

/-! ## Passkey lifecycle -/

theorem onAuthenticationComplete_passkey (s : State) (env : SecurityEnv)
    (auth_cmpl : AuthCmpl) :
    (onAuthenticationComplete s env auth_cmpl).1.currentDisplayedPasskey = 0 := by
  unfold onAuthenticationComplete
  dsimp only
  split <;> simp

/-- What an event does to `currentDisplayedPasskey`: `onAuthenticationComplete`
clears it, an `onPassKeyNotify` that decides Display stores the passkey, and
every other event leaves it unchanged. -/
theorem Event.run_passkey (s : State) (e : Event) (s' : State) (es : List Effect)
    (h : e.run s = some (s', es)) :
    (e.isAuthenticationComplete = true ∧ s'.currentDisplayedPasskey = 0) ∨
    (∃ env k, e = Event.passKeyNotify env k ∧
      ¬(0 < env.bondNum ∧ s.allowNewPairing = false) ∧
      s'.currentDisplayedPasskey = k % U32) ∨
    (e.isAuthenticationComplete = false ∧
      s'.currentDisplayedPasskey = s.currentDisplayedPasskey) := by
  cases e with
  | connect env param =>
    simp only [Event.run] at h
    rw [← fst_of_some_eq h]
    exact Or.inr (Or.inr ⟨rfl, (onConnect_keeps s env param).1⟩)
  | disconnect env =>
    simp only [Event.run] at h
    rw [← fst_of_some_eq h]
    exact Or.inr (Or.inr ⟨rfl, (onDisconnect_keeps s env).1⟩)
  | securityRequest env =>
    simp only [Event.run] at h
    rw [← fst_of_some_eq h]
    exact Or.inr (Or.inr ⟨rfl, (onSecurityRequest_keeps s env).1⟩)
  | passKeyNotify env k =>
    simp only [Event.run] at h
    rw [← fst_of_some_eq h]
    have hst := onPassKeyNotify_state s env k
    by_cases hc : 0 < env.bondNum ∧ s.allowNewPairing = false
    · refine Or.inr (Or.inr ⟨rfl, ?_⟩)
      rw [hst.1 hc]
    · obtain ⟨t, ht⟩ := hst.2 hc
      refine Or.inr (Or.inl ⟨env, k, rfl, hc, ?_⟩)
      rw [ht]
  | authenticationComplete env a =>
    simp only [Event.run] at h
    rw [← fst_of_some_eq h]
    exact Or.inl ⟨rfl, onAuthenticationComplete_passkey s env a⟩
  | write n v =>
    simp only [Event.run] at h
    rw [← fst_of_some_eq h, onWrite_state]
    exact Or.inr (Or.inr ⟨rfl, rfl⟩)
  | gesture inp d pfx =>
    obtain ⟨r, hg⟩ := Event.run_gesture s inp d pfx s' es h
    exact Or.inr (Or.inr ⟨rfl,
      (keeps_of_display s s' (waitForButtonPressDuration_state _ _ _ _ _ _ _ hg)).1⟩)
  | activation env =>
    simp only [Event.run] at h
    exact Or.inr (Or.inr ⟨rfl, loopActivation_passkey s env s' es h⟩)
  | timeout env =>
    simp only [Event.run] at h
    rw [← fst_of_some_eq h]
    exact Or.inr (Or.inr ⟨rfl, loopTimeout_passkey s env⟩)
  | connectionTracking =>
    simp only [Event.run] at h
    rw [← fst_of_some_eq h]
    exact Or.inr (Or.inr ⟨rfl, (loopConnectionTracking_keeps s).1⟩)
  | displayTimeout env =>
    simp only [Event.run] at h
    rw [← fst_of_some_eq h]
    exact Or.inr (Or.inr ⟨rfl, (loopDisplayTimeout_keeps s env).1⟩)
  | loopPass env =>
    simp only [Event.run] at h
    exact Or.inr (Or.inr ⟨rfl, loop_passkey s env s' es h⟩)

/-- A non-zero passkey after a run either was there at the start, with no
`onAuthenticationComplete` in the run, or follows an `onPassKeyNotify` of the
run after which there is no `onAuthenticationComplete`. -/
theorem runEvents_passkey :
    ∀ (evs : List Event) (s0 s : State), runEvents s0 evs = some s →
      s.currentDisplayedPasskey ≠ 0 →
      (s0.currentDisplayedPasskey ≠ 0 ∧ ∀ e ∈ evs, e.isAuthenticationComplete = false) ∨
      ∃ pre env k post, evs = pre ++ Event.passKeyNotify env k :: post ∧
        ∀ e ∈ post, e.isAuthenticationComplete = false := by
  intro evs
  induction evs with
  | nil =>
    intro s0 s hrun hne
    simp only [runEvents, Option.some.injEq] at hrun
    rw [hrun]
    exact Or.inl ⟨hne, fun e he => absurd he (List.not_mem_nil e)⟩
  | cons e rest ih =>
    intro s0 s hrun hne
    simp only [runEvents] at hrun
    cases he : e.run s0 with
    | none => rw [he] at hrun; exact Option.noConfusion hrun
    | some r =>
      obtain ⟨s1, e1⟩ := r
      rw [he] at hrun
      rcases ih s1 s hrun hne with ⟨h1, hrest⟩ | ⟨pre, env, k, post, hsplit, hpost⟩
      · rcases Event.run_passkey s0 e s1 e1 he with ⟨_, hz⟩ | ⟨env, k, hek, _, _⟩ | ⟨hna, hsame⟩
        · exact absurd hz h1
        · exact Or.inr ⟨[], env, k, rest, by rw [hek]; rfl, hrest⟩
        · refine Or.inl ⟨by rw [← hsame]; exact h1, ?_⟩
          intro x hx
          rcases List.mem_cons.mp hx with hx1 | hx1
          · rw [hx1]; exact hna
          · exact hrest x hx1
      · exact Or.inr ⟨e :: pre, env, k, post, by rw [hsplit]; rfl, hpost⟩

/-- C13. `currentDisplayedPasskey` is 0 initially and after every
`onAuthenticationComplete`. A suppressing `onPassKeyNotify` leaves it
unchanged and a displaying one stores the passkey. An event that changes it is
an `onAuthenticationComplete` or a displaying `onPassKeyNotify`, and one that
makes it non-zero is a displaying `onPassKeyNotify`. Hence, after every run
of events from the initial state that ends with a non-zero passkey, the run
contains an `onPassKeyNotify` with no `onAuthenticationComplete` after it. -/
theorem passkey_lifecycle :
    State.initial.currentDisplayedPasskey = 0 ∧
    (∀ (s : State) (env : SecurityEnv) (a : AuthCmpl),
      (onAuthenticationComplete s env a).1.currentDisplayedPasskey = 0) ∧
    (∀ (s : State) (env : SecurityEnv) (k : Nat),
      (0 < env.bondNum ∧ s.allowNewPairing = false) →
      (onPassKeyNotify s env k).1.currentDisplayedPasskey = s.currentDisplayedPasskey) ∧
    (∀ (s : State) (env : SecurityEnv) (k : Nat),
      ¬(0 < env.bondNum ∧ s.allowNewPairing = false) →
      (onPassKeyNotify s env k).1.currentDisplayedPasskey = k % U32) ∧
    (∀ (s : State) (e : Event) (s' : State) (es : List Effect), e.run s = some (s', es) →
      s'.currentDisplayedPasskey ≠ s.currentDisplayedPasskey →
      e.isAuthenticationComplete = true ∨
      ∃ env k, e = Event.passKeyNotify env k ∧
        ¬(0 < env.bondNum ∧ s.allowNewPairing = false)) ∧
    (∀ (s : State) (e : Event) (s' : State) (es : List Effect), e.run s = some (s', es) →
      s.currentDisplayedPasskey = 0 → s'.currentDisplayedPasskey ≠ 0 →
      ∃ env k, e = Event.passKeyNotify env k ∧
        ¬(0 < env.bondNum ∧ s.allowNewPairing = false)) ∧
    (∀ (evs : List Event) (s : State), runEvents State.initial evs = some s →
      s.currentDisplayedPasskey ≠ 0 →
      ∃ pre env k post, evs = pre ++ Event.passKeyNotify env k :: post ∧
        ∀ e ∈ post, e.isAuthenticationComplete = false) := by
  refine ⟨rfl, onAuthenticationComplete_passkey, ?_, ?_, ?_, ?_, ?_⟩
  · intro s env k hc
    rw [(onPassKeyNotify_state s env k).1 hc]
  · intro s env k hc
    obtain ⟨t, ht⟩ := (onPassKeyNotify_state s env k).2 hc
    rw [ht]
  · intro s e s' es hrun hne
    rcases Event.run_passkey s e s' es hrun with ⟨ha, _⟩ | ⟨env, k, hek, hc, _⟩ | ⟨_, hsame⟩
    · exact Or.inl ha
    · exact Or.inr ⟨env, k, hek, hc⟩
    · exact absurd hsame hne
  · intro s e s' es hrun hz hne
    rcases Event.run_passkey s e s' es hrun with ⟨_, h0⟩ | ⟨env, k, hek, hc, _⟩ | ⟨_, hsame⟩
    · exact absurd h0 hne
    · exact ⟨env, k, hek, hc⟩
    · rw [hsame] at hne
      exact absurd hz hne
  · intro evs s hrun hne
    rcases runEvents_passkey evs State.initial s hrun hne with ⟨h0, _⟩ | h
    · exact absurd rfl h0
    · exact h

/-- C13, at the run in which a passkey is shown after a connection in the
initial state. -/
theorem passkey_lifecycle_witness :
    runEvents State.initial
        [Event.connect ⟨0, none, true, 6000⟩ ⟨4, ⟨9, 9, 9, 9, 9, 9⟩⟩,
         Event.passKeyNotify ⟨0, 4, 6100⟩ 482913] =
      some ⟨true, false, 482913, false, false, 0, 0, 6100⟩ ∧
    ∃ pre env k post,
      [Event.connect ⟨0, none, true, 6000⟩ ⟨4, ⟨9, 9, 9, 9, 9, 9⟩⟩,
       Event.passKeyNotify ⟨0, 4, 6100⟩ 482913] = pre ++ Event.passKeyNotify env k :: post ∧
      ∀ e ∈ post, e.isAuthenticationComplete = false :=
  ⟨by decide,
    passkey_lifecycle.2.2.2.2.2.2
      [Event.connect ⟨0, none, true, 6000⟩ ⟨4, ⟨9, 9, 9, 9, 9, 9⟩⟩,
       Event.passKeyNotify ⟨0, 4, 6100⟩ 482913]
      ⟨true, false, 482913, false, false, 0, 0, 6100⟩ (by decide) (by decide)⟩

/-- Every step of the program is the run of an event, and conversely. -/
theorem step_iff_event (s s' : State) :
    Step s s' ↔ ∃ e es, Event.run s e = some (s', es) := by
  constructor
  · intro h
    cases h with
    | connect env param => exact ⟨Event.connect env param, _, rfl⟩
    | disconnect env => exact ⟨Event.disconnect env, _, rfl⟩
    | securityRequest env => exact ⟨Event.securityRequest env, _, rfl⟩
    | passKeyNotify env k => exact ⟨Event.passKeyNotify env k, _, rfl⟩
    | authenticationComplete env a => exact ⟨Event.authenticationComplete env a, _, rfl⟩
    | write n v => exact ⟨Event.write n v, _, rfl⟩
    | gesture inp d pfx r _ es hg =>
      refine ⟨Event.gesture inp d pfx, es, ?_⟩
      simp only [Event.run, hg]
    | activation env _ es ha => exact ⟨Event.activation env, es, ha⟩
    | timeout env => exact ⟨Event.timeout env, _, rfl⟩
    | connectionTracking => exact ⟨Event.connectionTracking, _, rfl⟩
    | displayTimeout env => exact ⟨Event.displayTimeout env, _, rfl⟩
    | loopPass env _ es hl => exact ⟨Event.loopPass env, es, hl⟩
  · rintro ⟨e, es, h⟩
    cases e with
    | connect env param =>
      simp only [Event.run] at h
      rw [← fst_of_some_eq h]; exact Step.connect s env param
    | disconnect env =>
      simp only [Event.run] at h
      rw [← fst_of_some_eq h]; exact Step.disconnect s env
    | securityRequest env =>
      simp only [Event.run] at h
      rw [← fst_of_some_eq h]; exact Step.securityRequest s env
    | passKeyNotify env k =>
      simp only [Event.run] at h
      rw [← fst_of_some_eq h]; exact Step.passKeyNotify s env k
    | authenticationComplete env a =>
      simp only [Event.run] at h
      rw [← fst_of_some_eq h]; exact Step.authenticationComplete s env a
    | write n v =>
      simp only [Event.run] at h
      rw [← fst_of_some_eq h]; exact Step.write s n v
    | gesture inp d pfx =>
      obtain ⟨r, hg⟩ := Event.run_gesture s inp d pfx s' es h
      exact Step.gesture s inp d pfx r s' es hg
    | activation env => exact Step.activation s env s' es h
    | timeout env =>
      simp only [Event.run] at h
      rw [← fst_of_some_eq h]; exact Step.timeout s env
    | connectionTracking =>
      simp only [Event.run] at h
      rw [← fst_of_some_eq h]; exact Step.connectionTracking s
    | displayTimeout env =>
      simp only [Event.run] at h
      rw [← fst_of_some_eq h]; exact Step.displayTimeout s env
    | loopPass env => exact Step.loopPass s env s' es h

/-- The state after a run of events from a reachable state is reachable. -/
theorem runEvents_reachable :
    ∀ (evs : List Event) (s s' : State), Reachable s → runEvents s evs = some s' →
      Reachable s' := by
  intro evs
  induction evs with
  | nil =>
    intro s s' hr hrun
    simp only [runEvents, Option.some.injEq] at hrun
    rw [← hrun]; exact hr
  | cons e rest ih =>
    intro s s' hr hrun
    simp only [runEvents] at hrun
    cases he : e.run s with
    | none => rw [he] at hrun; exact Option.noConfusion hrun
    | some r =>
      obtain ⟨s1, e1⟩ := r
      rw [he] at hrun
      exact ih s1 s' (Reachable.step s s1 hr ((step_iff_event s s1).mpr ⟨e, e1, he⟩)) hrun

theorem runEvents_append (evs : List Event) :
    ∀ (s s1 : State) (e : Event) (s' : State) (es : List Effect),
      runEvents s evs = some s1 → e.run s1 = some (s', es) →
      runEvents s (evs ++ [e]) = some s' := by
  induction evs with
  | nil =>
    intro s s1 e s' es h1 h2
    simp only [runEvents, Option.some.injEq] at h1
    subst h1
    simp [runEvents, h2]
  | cons x rest ih =>
    intro s s1 e s' es h1 h2
    simp only [runEvents, List.cons_append] at h1 ⊢
    cases hx : x.run s with
    | none => rw [hx] at h1; exact Option.noConfusion h1
    | some r =>
      rw [hx] at h1
      simp only
      exact ih r.1 s1 e s' es h1 h2

/-- The reachable states are the states after the runs of events from the
initial state. -/
theorem reachable_iff_runEvents (s : State) :
    Reachable s ↔ ∃ evs, runEvents State.initial evs = some s := by
  constructor
  · intro h
    induction h with
    | initial => exact ⟨[], rfl⟩
    | step a b _ hstep ih =>
      obtain ⟨evs, hevs⟩ := ih
      obtain ⟨e, es, he⟩ := (step_iff_event a b).mp hstep
      exact ⟨evs ++ [e], runEvents_append evs _ a e b es hevs he⟩
  · rintro ⟨evs, h⟩
    exact runEvents_reachable evs State.initial s Reachable.initial h

/-! ## Gesture detector -/

theorem waitLoop_released (rd st : Nat) (pfx : String) (p : Poll) (rest : List Poll)
    (s : State) (last : Nat) (hp : p.pin = false) :
    waitLoop rd st pfx (p :: rest) s last =
      some (false, (displayClear s).1, (displayClear s).2) := by
  simp [waitLoop, hp]

theorem waitLoop_reached (rd st : Nat) (pfx : String) (p : Poll) (rest : List Poll)
    (s : State) (last : Nat) (hp : p.pin = true) (he : rd ≤ sub32 p.now st) :
    waitLoop rd st pfx (p :: rest) s last =
      some (true, (displayClear (countdownAt rd st pfx p s last).1).1,
        (countdownAt rd st pfx p s last).2.1 ++
          (displayClear (countdownAt rd st pfx p s last).1).2) := by
  simp [waitLoop, hp, he, countdownAt]

theorem waitLoop_continue (rd st : Nat) (pfx : String) (p : Poll) (rest : List Poll)
    (s : State) (last : Nat) (hp : p.pin = true) (he : sub32 p.now st < rd) :
    waitLoop rd st pfx (p :: rest) s last =
      match waitLoop rd st pfx rest (countdownAt rd st pfx p s last).1
          (countdownAt rd st pfx p s last).2.2 with
      | none => none
      | some (r, s', es) =>
        some (r, s', (countdownAt rd st pfx p s last).2.1 ++ Effect.delay 10 :: es) := by
  have he2 : ¬ rd ≤ sub32 p.now st := not_le.mpr he
  simp only [waitLoop, hp, if_true, he2, if_false, countdownAt]

/-- The value returned by the `while` of the gesture detector depends on the
pin levels and the clock readings only. -/
theorem waitLoop_outcome (rd st : Nat) (pfx : String) :
    ∀ (polls : List Poll) (s : State) (last : Nat),
      (waitLoop rd st pfx polls s last).map (fun r => r.1) = pollOutcome rd st polls := by
  intro polls
  induction polls with
  | nil => intro s last; rfl
  | cons p rest ih =>
    intro s last
    by_cases hp : p.pin = true
    · by_cases he : rd ≤ sub32 p.now st
      · rw [waitLoop_reached rd st pfx p rest s last hp he]
        simp [pollOutcome, hp, he]
      · rw [waitLoop_continue rd st pfx p rest s last hp (not_le.mp he)]
        have hih := ih (countdownAt rd st pfx p s last).1 (countdownAt rd st pfx p s last).2.2
        simp only [pollOutcome, hp, if_true, he, if_false]
        rw [← hih]
        cases waitLoop rd st pfx rest (countdownAt rd st pfx p s last).1
          (countdownAt rd st pfx p s last).2.2 with
        | none => rfl
        | some v => rfl
    · have hp2 : p.pin = false := by simpa using hp
      rw [waitLoop_released rd st pfx p rest s last hp2]
      simp [pollOutcome, hp2]

theorem pollOutcome_true_iff (rd st : Nat) (polls : List Poll) :
    pollOutcome rd st polls = some true ↔
      ∃ pre p post, polls = pre ++ p :: post ∧
        (∀ q ∈ pre, q.pin = true ∧ q.elapsed st < rd) ∧
        p.pin = true ∧ rd ≤ p.elapsed st := by
  induction polls with
  | nil =>
    constructor
    · intro h; exact Option.noConfusion h
    · rintro ⟨pre, p, post, h, _⟩
      exact absurd h (by simp)
  | cons x rest ih =>
    by_cases hp : x.pin = true
    · by_cases he : rd ≤ sub32 x.now st
      · simp only [pollOutcome, hp, if_true, he, true_iff]
        exact ⟨[], x, rest, rfl, fun q hq => absurd hq (List.not_mem_nil q), hp, he⟩
      · simp only [pollOutcome, hp, if_true, he, if_false]
        rw [ih]
        constructor
        · rintro ⟨pre, p, post, h, hpre, hpin, hge⟩
          refine ⟨x :: pre, p, post, by rw [h]; rfl, ?_, hpin, hge⟩
          intro q hq
          rcases List.mem_cons.mp hq with h1 | h1
          · rw [h1]; exact ⟨hp, not_le.mp he⟩
          · exact hpre q h1
        · rintro ⟨pre, p, post, h, hpre, hpin, hge⟩
          cases pre with
          | nil =>
            simp only [List.nil_append, List.cons.injEq] at h
            rw [h.1] at he
            exact absurd hge he
          | cons y pre' =>
            simp only [List.cons_append, List.cons.injEq] at h
            exact ⟨pre', p, post, h.2,
              fun q hq => hpre q (List.mem_cons_of_mem _ hq), hpin, hge⟩
    · have hp2 : x.pin = false := by simpa using hp
      simp only [pollOutcome, hp2, Bool.false_eq_true, if_false, Option.some.injEq,
        false_iff]
      rintro ⟨pre, p, post, h, hpre, hpin, _⟩
      cases pre with
      | nil =>
        simp only [List.nil_append, List.cons.injEq] at h
        rw [← h.1, hp2] at hpin
        exact Bool.noConfusion hpin
      | cons y pre' =>
        simp only [List.cons_append, List.cons.injEq] at h
        have := (hpre y (List.mem_cons_self _ _)).1
        rw [← h.1, hp2] at this
        exact Bool.noConfusion this

theorem pollOutcome_false_iff (rd st : Nat) (polls : List Poll) :
    pollOutcome rd st polls = some false ↔
      ∃ pre p post, polls = pre ++ p :: post ∧
        (∀ q ∈ pre, q.pin = true ∧ q.elapsed st < rd) ∧ p.pin = false := by
  induction polls with
  | nil =>
    constructor
    · intro h; exact Option.noConfusion h
    · rintro ⟨pre, p, post, h, _⟩
      exact absurd h (by simp)
  | cons x rest ih =>
    by_cases hp : x.pin = true
    · by_cases he : rd ≤ sub32 x.now st
      · simp only [pollOutcome, hp, if_true, he, Option.some.injEq, Bool.true_eq_false,
          false_iff]
        rintro ⟨pre, p, post, h, hpre, hpin⟩
        cases pre with
        | nil =>
          simp only [List.nil_append, List.cons.injEq] at h
          rw [← h.1, hp] at hpin
          exact Bool.noConfusion hpin
        | cons y pre' =>
          simp only [List.cons_append, List.cons.injEq] at h
          have := (hpre y (List.mem_cons_self _ _)).2
          rw [← h.1] at this
          exact absurd he (not_le.mpr this)
      · simp only [pollOutcome, hp, if_true, he, if_false]
        rw [ih]
        constructor
        · rintro ⟨pre, p, post, h, hpre, hpin⟩
          refine ⟨x :: pre, p, post, by rw [h]; rfl, ?_, hpin⟩
          intro q hq
          rcases List.mem_cons.mp hq with h1 | h1
          · rw [h1]; exact ⟨hp, not_le.mp he⟩
          · exact hpre q h1
        · rintro ⟨pre, p, post, h, hpre, hpin⟩
          cases pre with
          | nil =>
            simp only [List.nil_append, List.cons.injEq] at h
            rw [← h.1, hp] at hpin
            exact Bool.noConfusion hpin
          | cons y pre' =>
            simp only [List.cons_append, List.cons.injEq] at h
            exact ⟨pre', p, post, h.2, fun q hq => hpre q (List.mem_cons_of_mem _ hq), hpin⟩
    · have hp2 : x.pin = false := by simpa using hp
      simp only [pollOutcome, hp2, Bool.false_eq_true, if_false, true_iff]
      exact ⟨[], x, rest, rfl, fun q hq => absurd hq (List.not_mem_nil q), hp2⟩

theorem pollOutcome_none_iff (rd st : Nat) (polls : List Poll) :
    pollOutcome rd st polls = none ↔ ∀ q ∈ polls, q.pin = true ∧ q.elapsed st < rd := by
  induction polls with
  | nil => simp [pollOutcome]
  | cons x rest ih =>
    by_cases hp : x.pin = true
    · by_cases he : rd ≤ sub32 x.now st
      · simp only [pollOutcome, hp, if_true, he]
        constructor
        · intro h; exact Option.noConfusion h
        · intro h
          exact absurd he (not_le.mpr (h x (List.mem_cons_self _ _)).2)
      · simp only [pollOutcome, hp, if_true, he, if_false]
        rw [ih]
        constructor
        · intro h q hq
          rcases List.mem_cons.mp hq with h1 | h1
          · rw [h1]; exact ⟨hp, not_le.mp he⟩
          · exact h q h1
        · intro h q hq
          exact h q (List.mem_cons_of_mem _ hq)
    · have hp2 : x.pin = false := by simpa using hp
      simp only [pollOutcome, hp2, Bool.false_eq_true, if_false]
      constructor
      · intro h; exact Option.noConfusion h
      · intro h
        have := (h x (List.mem_cons_self _ _)).1
        rw [hp2] at this
        exact Bool.noConfusion this

theorem pollOutcome_mod (rd st : Nat) (polls : List Poll) :
    pollOutcome rd (st % U32) polls = pollOutcome rd st polls := by
  induction polls with
  | nil => rfl
  | cons x rest ih => simp only [pollOutcome, sub32_mod_right, ih]

theorem map_fst_eq_some_iff (o : Option (Bool × State × List Effect)) (b : Bool) :
    o.map (fun r => r.1) = some b ↔ ∃ s' es, o = some (b, s', es) := by
  cases o with
  | none => simp
  | some v =>
    obtain ⟨r, s1, e1⟩ := v
    simp

/-- The value returned by the gesture detector depends on the pin levels and
the clock readings only. -/
theorem waitForButtonPressDuration_outcome (s : State) (inp : GestureInput) (rd : Nat)
    (pfx : String) (hrd : rd < U32) :
    (waitForButtonPressDuration s inp rd pfx).map (fun r => r.1) =
      if inp.entryPin = true then pollOutcome rd inp.startTime inp.polls else some false := by
  have hmod : rd % U32 = rd := Nat.mod_eq_of_lt hrd
  unfold waitForButtonPressDuration
  by_cases hp : inp.entryPin = true
  · simp only [hp, if_true, hmod]
    rw [← pollOutcome_mod, ← waitLoop_outcome rd (inp.startTime % U32) pfx inp.polls s (rd / 1000)]
    cases waitLoop rd (inp.startTime % U32) pfx inp.polls s (rd / 1000) with
    | none => rfl
    | some v => rfl
  · simp [hp]

/-- C15. The gesture detector returns `true` exactly when the pin reads
asserted at the entry check and at every poll up to and including the first
poll whose elapsed time since call entry is at least `requiredDuration`. It
returns `false` exactly when the pin reads released at the entry check, or at
a poll before which every poll read asserted with an elapsed time below
`requiredDuration`. It has not returned on the recorded polls exactly when the
entry check and all of them read asserted below the threshold. -/
theorem waitForButtonPressDuration_threshold (s : State) (inp : GestureInput)
    (requiredDuration : Nat) (pfx : String) (hrd : requiredDuration < U32) :
    ((∃ s' es, waitForButtonPressDuration s inp requiredDuration pfx = some (true, s', es)) ↔
      (inp.entryPin = true ∧ ∃ pre p post, inp.polls = pre ++ p :: post ∧
        (∀ q ∈ pre, q.pin = true ∧ q.elapsed inp.startTime < requiredDuration) ∧
        p.pin = true ∧ requiredDuration ≤ p.elapsed inp.startTime)) ∧
    ((∃ s' es, waitForButtonPressDuration s inp requiredDuration pfx = some (false, s', es)) ↔
      (inp.entryPin = false ∨ ∃ pre p post, inp.polls = pre ++ p :: post ∧
        (∀ q ∈ pre, q.pin = true ∧ q.elapsed inp.startTime < requiredDuration) ∧
        p.pin = false)) ∧
    (waitForButtonPressDuration s inp requiredDuration pfx = none ↔
      (inp.entryPin = true ∧
        ∀ q ∈ inp.polls, q.pin = true ∧ q.elapsed inp.startTime < requiredDuration)) := by
  have hout := waitForButtonPressDuration_outcome s inp requiredDuration pfx hrd
  by_cases hp : inp.entryPin = true
  · simp only [hp, if_true] at hout
    refine ⟨?_, ?_, ?_⟩
    · rw [← map_fst_eq_some_iff, hout, pollOutcome_true_iff]
      simp [hp]
    · rw [← map_fst_eq_some_iff, hout, pollOutcome_false_iff]
      simp [hp]
    · rw [← pollOutcome_none_iff, ← hout]
      simp [hp]
  · have hp2 : inp.entryPin = false := by simpa using hp
    simp only [hp2, Bool.false_eq_true, if_false] at hout
    refine ⟨?_, ?_, ?_⟩
    · rw [← map_fst_eq_some_iff, hout]
      simp [hp2]
    · rw [← map_fst_eq_some_iff, hout]
      simp [hp2]
    · constructor
      · intro h
        rw [h] at hout
        exact Option.noConfusion hout
      · intro h
        exact absurd h.1 hp

/-- C15, at a 5000 ms gesture: held through the poll at 5000 ms it returns
`true`; released at the poll at 4999 ms it returns `false`. -/
theorem waitForButtonPressDuration_threshold_witness :
    5000 < U32 ∧
      (∃ s' es, waitForButtonPressDuration State.initial
        ⟨0, true, [⟨true, 2500, 2500⟩, ⟨true, 5000, 5000⟩]⟩ 5000 "PAIr" =
          some (true, s', es)) ∧
      (∃ s' es, waitForButtonPressDuration State.initial
        ⟨0, true, [⟨true, 2500, 2500⟩, ⟨false, 4999, 4999⟩]⟩ 5000 "PAIr" =
          some (false, s', es)) :=
  ⟨by decide,
    (waitForButtonPressDuration_threshold State.initial
      ⟨0, true, [⟨true, 2500, 2500⟩, ⟨true, 5000, 5000⟩]⟩ 5000 "PAIr" (by decide)).1.mpr
      ⟨rfl, [⟨true, 2500, 2500⟩], ⟨true, 5000, 5000⟩, [], rfl, by decide, rfl, by decide⟩,
    (waitForButtonPressDuration_threshold State.initial
      ⟨0, true, [⟨true, 2500, 2500⟩, ⟨false, 4999, 4999⟩]⟩ 5000 "PAIr" (by decide)).2.1.mpr
      (Or.inr ⟨[⟨true, 2500, 2500⟩], ⟨false, 4999, 4999⟩, [], rfl, by decide, rfl⟩)⟩

/-! ## Gesture detector: the countdown -/

theorem sub32_of_le (a b : Nat) (ha : a < U32) (hb : b ≤ a) : sub32 a b = a - b := by
  unfold sub32 U32 at *
  omega

theorem showCountdown_changed (s : State) (dispNow secs last : Nat) (pfx : String)
    (h : secs ≠ last) :
    (showCountdown s dispNow secs last pfx).2.1 =
      (displayNumber s dispNow secs (pfx.length % U8) pfx).2 ++ [countdownLog secs] := by
  simp [showCountdown, h, countdownLog]

/-- C19, as stated, fails 100 ms into a 5000 ms hold: the function shows and
logs 4, the integer quotient of 4900 by 1000 (line 194), where the ceiling
is 5. -/
theorem countdown_is_not_ceiling :
    (waitForButtonPressDuration State.initial
        ⟨0, true, [⟨true, 100, 100⟩, ⟨false, 110, 110⟩]⟩ 5000 "PAIr").map
        (fun r => r.2.2.filter Effect.isSerial) = some [countdownLog 4] ∧
      (5000 - 100 + 999) / 1000 = 5 ∧ countdownLog 4 ≠ countdownLog 5 := by
  decide

/-- C19, amended. At a poll at which the pin is asserted and the elapsed time
`e` since call entry is at most `requiredDuration`, the number of seconds the
function shows and logs, when it differs from the one shown last, is the
integer quotient of `requiredDuration - e` by 1000, rounded down: the effects
of the call from this poll on begin with the display and the log line of that
number. -/
theorem countdown_value (rd st : Nat) (pfx : String) (p : Poll) (rest : List Poll)
    (s : State) (last : Nat) (r : Bool) (s' : State) (es : List Effect)
    (hp : p.pin = true) (hrd : rd < U32) (he : p.elapsed st ≤ rd)
    (hrun : waitLoop rd st pfx (p :: rest) s last = some (r, s', es)) :
    ((rd - p.elapsed st) / 1000 ≠ last →
      (displayNumber s p.dispNow ((rd - p.elapsed st) / 1000) (pfx.length % U8) pfx).2 ++
        [countdownLog ((rd - p.elapsed st) / 1000)] <+: es) ∧
    (rd - p.elapsed st) / 1000 * 1000 ≤ rd - p.elapsed st ∧
    rd - p.elapsed st < (rd - p.elapsed st) / 1000 * 1000 + 1000 := by
  have hsub : sub32 rd (sub32 p.now st) = rd - p.elapsed st := sub32_of_le rd _ hrd he
  refine ⟨?_, Nat.div_mul_le_self _ _, ?_⟩
  · intro hne
    have hsh := showCountdown_changed s p.dispNow ((rd - p.elapsed st) / 1000) last pfx hne
    by_cases hge : rd ≤ sub32 p.now st
    · rw [waitLoop_reached rd st pfx p rest s last hp hge] at hrun
      simp only [Option.some.injEq, Prod.mk.injEq] at hrun
      rw [← hrun.2.2]
      unfold countdownAt
      rw [hsub, hsh]
      exact List.prefix_append _ _
    · rw [waitLoop_continue rd st pfx p rest s last hp (not_le.mp hge)] at hrun
      cases hrec : waitLoop rd st pfx rest (countdownAt rd st pfx p s last).1
          (countdownAt rd st pfx p s last).2.2 with
      | none => rw [hrec] at hrun; exact Option.noConfusion hrun
      | some v =>
        obtain ⟨r1, s1, e1⟩ := v
        rw [hrec] at hrun
        simp only [Option.some.injEq, Prod.mk.injEq] at hrun
        rw [← hrun.2.2]
        unfold countdownAt
        rw [hsub, hsh]
        exact List.prefix_append _ _
  · have := Nat.div_add_mod (rd - p.elapsed st) 1000
    have hm := Nat.mod_lt (rd - p.elapsed st) (by decide : 1000 > 0)
    omega

/-- C19, amended, 100 ms into a 5000 ms hold that is released at the next
poll: the value shown is 4. -/
theorem countdown_value_witness :
    5000 < U32 ∧ Poll.elapsed 0 ⟨true, 100, 100⟩ ≤ 5000 ∧
      (5000 - Poll.elapsed 0 ⟨true, 100, 100⟩) / 1000 = 4 ∧
      ∃ s' es, waitLoop 5000 0 "PAIr" [⟨true, 100, 100⟩, ⟨false, 110, 110⟩] State.initial 5 =
          some (false, s', es) ∧
        (displayNumber State.initial 100 4 ("PAIr".length % U8) "PAIr").2 ++ [countdownLog 4]
          <+: es := by
  obtain ⟨s', es, h⟩ : ∃ (s' : State) (es : List Effect),
      waitLoop 5000 0 "PAIr" [⟨true, 100, 100⟩, ⟨false, 110, 110⟩] State.initial 5 =
        some (false, s', es) := ⟨_, _, rfl⟩
  exact ⟨by decide, by decide, by decide, s', es, h,
    (countdown_value 5000 0 "PAIr" ⟨true, 100, 100⟩ [⟨false, 110, 110⟩] State.initial 5
      false s' es rfl (by decide) (by decide) h).1 (by decide)⟩

/-! ## Gesture detector: clearing the display -/

theorem displayClear_zero (s : State) (h : s.currentDisplayedPasskey = 0) :
    displayClear s = ({ s with lastDisplayUpdate := 0 }, [Effect.clearMatrix]) := by
  simp [displayClear, h]

/-- While a passkey is held, `displayClear` does nothing. -/
theorem displayClear_held (s : State) (h : s.currentDisplayedPasskey ≠ 0) :
    displayClear s = (s, []) := by
  simp [displayClear, h]

theorem countdownAt_state (rd st : Nat) (pfx : String) (p : Poll) (s : State) (last : Nat) :
    ∃ t, (countdownAt rd st pfx p s last).1 = { s with lastDisplayUpdate := t } :=
  showCountdown_state s _ _ _ _

/-- When no passkey is held, every return of the `while` of the gesture
detector ends with a clear of the display and a reset of
`lastDisplayUpdate`. -/
theorem waitLoop_clears (rd st : Nat) (pfx : String) :
    ∀ (polls : List Poll) (s : State) (last : Nat) (r : Bool) (s' : State)
      (es : List Effect), s.currentDisplayedPasskey = 0 →
      waitLoop rd st pfx polls s last = some (r, s', es) →
      (∃ init, es = init ++ [Effect.clearMatrix]) ∧ s' = { s with lastDisplayUpdate := 0 } := by
  intro polls
  induction polls with
  | nil => intro s last r s' es _ h; simp [waitLoop] at h
  | cons p rest ih =>
    intro s last r s' es hkey h
    obtain ⟨t, ht⟩ := countdownAt_state rd st pfx p s last
    have hkey1 : (countdownAt rd st pfx p s last).1.currentDisplayedPasskey = 0 := by
      rw [ht]; exact hkey
    by_cases hp : p.pin = true
    · by_cases he : rd ≤ sub32 p.now st
      · rw [waitLoop_reached rd st pfx p rest s last hp he, displayClear_zero _ hkey1] at h
        simp only [Option.some.injEq, Prod.mk.injEq] at h
        refine ⟨⟨_, h.2.2.symm⟩, ?_⟩
        rw [← h.2.1, ht]
      · rw [waitLoop_continue rd st pfx p rest s last hp (not_le.mp he)] at h
        cases hrec : waitLoop rd st pfx rest (countdownAt rd st pfx p s last).1
            (countdownAt rd st pfx p s last).2.2 with
        | none => rw [hrec] at h; exact Option.noConfusion h
        | some v =>
          obtain ⟨r1, s1, e1⟩ := v
          rw [hrec] at h
          simp only [Option.some.injEq, Prod.mk.injEq] at h
          obtain ⟨⟨init, hinit⟩, hs1⟩ := ih _ _ _ _ _ hkey1 hrec
          refine ⟨⟨(countdownAt rd st pfx p s last).2.1 ++ Effect.delay 10 :: init, ?_⟩, ?_⟩
          · rw [← h.2.2, hinit]
            simp
          · rw [← h.2.1, hs1, ht]
    · have hp2 : p.pin = false := by simpa using hp
      rw [waitLoop_released rd st pfx p rest s last hp2, displayClear_zero s hkey] at h
      simp only [Option.some.injEq, Prod.mk.injEq] at h
      exact ⟨⟨[], by rw [← h.2.2]; rfl⟩, h.2.1.symm⟩

theorem passkeyHeld_reachable : Reachable passkeyHeld :=
  (reachable_iff_runEvents passkeyHeld).mpr ⟨abandonedPairing, by decide⟩

/-- C20, as stated, fails while a passkey is held: in the reachable state
`passkeyHeld` the guard of `displayClear` (line 145) is false. On release at
the first poll the only effect of the call is the debounce delay, and the
state is unchanged. On success after a 5000 ms hold the countdown was shown,
`lastDisplayUpdate` is left at the reading 5000 of that display, and the last
effect is the countdown log line, not a clear. -/
theorem displayClear_skipped_with_passkey :
    waitForButtonPressDuration passkeyHeld ⟨0, true, [⟨false, 100, 100⟩]⟩ 5000 "PAIr" =
        some (false, passkeyHeld, [Effect.delay 15]) ∧
      (waitForButtonPressDuration passkeyHeld ⟨0, true, [⟨true, 5000, 5000⟩]⟩ 5000
          "PAIr").map (fun r => (r.1, r.2.1.lastDisplayUpdate, r.2.2.getLast?)) =
        some (true, 5000, some (countdownLog 0)) := by
  decide

/-- C20, amended. When the gesture detector is entered with the pin asserted
and `currentDisplayedPasskey` is 0, then at the first poll that reads the pin
released or reaches the threshold the call returns (`false` on release, `true`
on success), its last effect is a clear of the display, and the state after
it is the state before with `lastDisplayUpdate` reset to 0. -/
theorem waitForButtonPressDuration_clears (s : State) (inp : GestureInput)
    (requiredDuration : Nat) (pfx : String) (pre : List Poll) (p : Poll) (post : List Poll)
    (hrd : requiredDuration < U32) (hkey : s.currentDisplayedPasskey = 0)
    (hentry : inp.entryPin = true) (hpolls : inp.polls = pre ++ p :: post)
    (hpre : ∀ q ∈ pre, q.pin = true ∧ q.elapsed inp.startTime < requiredDuration)
    (hexit : p.pin = false ∨ requiredDuration ≤ p.elapsed inp.startTime) :
    ∃ s' es, waitForButtonPressDuration s inp requiredDuration pfx = some (p.pin, s', es) ∧
      (∃ init, es = init ++ [Effect.clearMatrix]) ∧
      s'.lastDisplayUpdate = 0 ∧ s' = { s with lastDisplayUpdate := 0 } := by
  have hout := waitForButtonPressDuration_outcome s inp requiredDuration pfx hrd
  simp only [hentry, if_true] at hout
  have hres : pollOutcome requiredDuration inp.startTime inp.polls = some p.pin := by
    by_cases hp : p.pin = true
    · rw [hp]
      rcases hexit with h | h
      · rw [hp] at h; exact Bool.noConfusion h
      · exact (pollOutcome_true_iff _ _ _).mpr ⟨pre, p, post, hpolls, hpre, hp, h⟩
    · have hp2 : p.pin = false := by simpa using hp
      rw [hp2]
      exact (pollOutcome_false_iff _ _ _).mpr ⟨pre, p, post, hpolls, hpre, hp2⟩
  rw [hres] at hout
  obtain ⟨s', es, hw⟩ := (map_fst_eq_some_iff _ _).mp hout
  refine ⟨s', es, hw, ?_⟩
  unfold waitForButtonPressDuration at hw
  simp only [hentry, if_true] at hw
  cases hrec : waitLoop (requiredDuration % U32) (inp.startTime % U32) pfx inp.polls s
      (requiredDuration % U32 / 1000) with
  | none => rw [hrec] at hw; exact Option.noConfusion hw
  | some v =>
    obtain ⟨r1, s1, e1⟩ := v
    rw [hrec] at hw
    simp only [Option.some.injEq, Prod.mk.injEq] at hw
    obtain ⟨⟨init, hinit⟩, hs1⟩ := waitLoop_clears _ _ _ _ _ _ _ _ _ hkey hrec
    refine ⟨⟨Effect.delay 15 :: init, ?_⟩, ?_, ?_⟩
    · rw [← hw.2.2, hinit]; rfl
    · rw [← hw.2.1, hs1]
    · rw [← hw.2.1, hs1]

/-- C20, amended, at a 5000 ms gesture from the initial state, released at the
poll at 4999 ms. -/
theorem waitForButtonPressDuration_clears_witness :
    5000 < U32 ∧ State.initial.currentDisplayedPasskey = 0 ∧
      ∃ s' es, waitForButtonPressDuration State.initial
          ⟨0, true, [⟨true, 2500, 2500⟩, ⟨false, 4999, 4999⟩]⟩ 5000 "PAIr" =
            some (false, s', es) ∧
        (∃ init, es = init ++ [Effect.clearMatrix]) ∧ s'.lastDisplayUpdate = 0 := by
  obtain ⟨s', es, h1, h2, h3, _⟩ := waitForButtonPressDuration_clears State.initial
    ⟨0, true, [⟨true, 2500, 2500⟩, ⟨false, 4999, 4999⟩]⟩ 5000 "PAIr"
    [⟨true, 2500, 2500⟩] ⟨false, 4999, 4999⟩ [] (by decide) rfl rfl rfl (by decide)
    (Or.inl rfl)
  exact ⟨by decide, rfl, s', es, h1, h2, h3⟩

/-! ## Visibility of rejections -/

/-- The value `onSecurityRequest` returns is `false` exactly when the registry
is non-empty and the window is closed. -/
theorem onSecurityRequest_false_iff (s : State) (env : SecurityEnv) :
    (onSecurityRequest s env).1 = false ↔ (0 < env.bondNum ∧ s.allowNewPairing = false) := by
  unfold onSecurityRequest
  split
  · rename_i hc
    simp [hc]
  · rename_i hc
    simp [hc]

/-- When the passkey-hold guard of line 109 is false, the effects of
`displayString` do not depend on the state or on the clock reading. -/
theorem displayString_unguarded (s : State) (now : Nat) (str : String) (seg : Nat)
    (pfx : String) (h : ¬(s.pairingModeActive = true ∧ 0 < s.currentDisplayedPasskey)) :
    (displayString s now str seg pfx).2 = (displayString State.initial 0 str seg pfx).2 := by
  simp [displayString, h, State.initial]

/-- When `onConnect` issues a disconnect, it has taken its rejecting branch,
and `allowNewPairing` is false. -/
theorem onConnect_disconnect (s : State) (env : ConnectEnv) (param : ConnectParam)
    (h : ∃ c, Effect.disconnect c ∈ (onConnect s env param).2) :
    s.allowNewPairing = false ∧
      (onConnect s env param).2 =
        println "Device connected. Starting secure connection process..." ::
          (onConnectReject s env param).2 := by
  obtain ⟨c, hc⟩ := h
  have hacc : Effect.disconnect c ∉
      println "Device connected. Starting secure connection process..." ::
        (onConnectAccept s env param).2 := by
    intro hm
    rcases List.mem_cons.mp hm with h1 | h1
    · simp [println] at h1
    · exact (onConnectAccept_spec s env param).1 c h1
  unfold onConnect at hc ⊢
  split at hc
  · rename_i hcond
    split at hc
    · dsimp only at hc ⊢
      split at hc
      · rename_i hb
        simp only [hcond, and_self, if_true, hb]
      · exact absurd hc hacc
    · exact absurd hc hacc
  · exact absurd hc hacc

/-- C21. In every reachable state the passkey-hold guard of `displayString` is
false whenever `onConnect` rejects a link or `onSecurityRequest` rejects a
request, and the display receives the text: `UNAUTH` is all `onConnect` writes,
and what `onSecurityRequest` writes begins with `SEC rEj`. In every state
`onAuthenticationComplete` clears the display and writes `SEC PASS` on success
and `SEC FAIL` on failure, and nothing else. -/
theorem rejections_are_displayed (s : State) (h : Reachable s) :
    (∀ (env : ConnectEnv) (param : ConnectParam),
      (∃ c, Effect.disconnect c ∈ (onConnect s env param).2) →
      ¬(s.pairingModeActive = true ∧ 0 < s.currentDisplayedPasskey) ∧
      (onConnect s env param).2.filter Effect.isDisplay =
        [Effect.clearMatrix, Effect.setChar 7 'U' false, Effect.setChar 6 'N' false,
         Effect.setChar 5 'A' false, Effect.setChar 4 'U' false, Effect.setChar 3 'T' false,
         Effect.setChar 2 'H' false]) ∧
    (∀ env : SecurityEnv, (onSecurityRequest s env).1 = false →
      ¬(s.pairingModeActive = true ∧ 0 < s.currentDisplayedPasskey) ∧
      [Effect.clearMatrix, Effect.setChar 7 'S' false, Effect.setChar 6 'E' false,
       Effect.setChar 5 'C' false, Effect.setChar 4 ' ' false, Effect.setChar 3 'r' false,
       Effect.setChar 2 'E' false, Effect.setChar 1 'j' false] <+:
        (onSecurityRequest s env).2.2.filter Effect.isDisplay) ∧
    (∀ (s0 : State) (env : SecurityEnv) (a : AuthCmpl),
      (onAuthenticationComplete s0 env a).2.filter Effect.isDisplay =
        [Effect.clearMatrix, Effect.clearMatrix, Effect.setChar 7 'S' false,
         Effect.setChar 6 'E' false, Effect.setChar 5 'C' false, Effect.setChar 4 ' ' false,
         Effect.setChar 3 (if a.success = true then 'P' else 'F') false,
         Effect.setChar 2 'A' false,
         Effect.setChar 1 (if a.success = true then 'S' else 'I') false,
         Effect.setChar 0 (if a.success = true then 'S' else 'L') false]) := by
  have hflags := Reachable.flags_eq s h
  have hguard : s.allowNewPairing = false →
      ¬(s.pairingModeActive = true ∧ 0 < s.currentDisplayedPasskey) := by
    intro ha hg
    rw [hflags, ha] at hg
    exact Bool.noConfusion hg.1
  refine ⟨?_, ?_, ?_⟩
  · intro env param hd
    obtain ⟨ha, heff⟩ := onConnect_disconnect s env param hd
    have hg := hguard ha
    refine ⟨hg, ?_⟩
    have htext : (displayString State.initial 0 "UNAUTH" 0 "").2 =
        [Effect.clearMatrix, Effect.setChar 7 'U' false, Effect.setChar 6 'N' false,
         Effect.setChar 5 'A' false, Effect.setChar 4 'U' false, Effect.setChar 3 'T' false,
         Effect.setChar 2 'H' false] := by decide
    rw [heff]
    simp only [onConnectReject, displayString_unguarded s env.now "UNAUTH" 0 "" hg, htext]
    simp [println, Effect.isDisplay]
  · intro env hrej
    have hcond : 0 < env.bondNum ∧ s.allowNewPairing = false :=
      (onSecurityRequest_false_iff s env).mp hrej
    have hg := hguard hcond.2
    refine ⟨hg, ?_⟩
    have htext : (displayString State.initial 0 "SEC rEj" 0 "").2 =
        [Effect.clearMatrix, Effect.setChar 7 'S' false, Effect.setChar 6 'E' false,
         Effect.setChar 5 'C' false, Effect.setChar 4 ' ' false, Effect.setChar 3 'r' false,
         Effect.setChar 2 'E' false, Effect.setChar 1 'j' false] := by decide
    simp only [onSecurityRequest, hcond, and_self, if_true,
      displayString_unguarded s env.now "SEC rEj" 0 "" hg, htext]
    simp [println, Effect.isDisplay, List.filter_append]
  · intro s0 env a
    have hg : ¬(({ s0 with currentDisplayedPasskey := 0 } : State).pairingModeActive = true ∧
        0 < ({ s0 with currentDisplayedPasskey := 0 } : State).currentDisplayedPasskey) := by
      intro hc
      exact absurd hc.2 (lt_irrefl 0)
    have hpass : (displayString State.initial 0 "SEC PASS" 0 "").2 =
        [Effect.clearMatrix, Effect.setChar 7 'S' false, Effect.setChar 6 'E' false,
         Effect.setChar 5 'C' false, Effect.setChar 4 ' ' false, Effect.setChar 3 'P' false,
         Effect.setChar 2 'A' false, Effect.setChar 1 'S' false,
         Effect.setChar 0 'S' false] := by decide
    have hfail : (displayString State.initial 0 "SEC FAIL" 0 "").2 =
        [Effect.clearMatrix, Effect.setChar 7 'S' false, Effect.setChar 6 'E' false,
         Effect.setChar 5 'C' false, Effect.setChar 4 ' ' false, Effect.setChar 3 'F' false,
         Effect.setChar 2 'A' false, Effect.setChar 1 'I' false,
         Effect.setChar 0 'L' false] := by decide
    unfold onAuthenticationComplete
    dsimp only
    by_cases hs : a.success = true
    · split <;>
        simp [reportOutcome, hs, displayString_unguarded _ env.now "SEC PASS" 0 "" hg, hpass,
          println, print, Effect.isDisplay, List.filter_append]
    · have hs2 : a.success = false := by simpa using hs
      split <;>
        simp [reportOutcome, hs2, displayString_unguarded _ env.now "SEC FAIL" 0 "" hg, hfail,
          println, print, Effect.isDisplay, List.filter_append]

/-- C21, at the reachable state `passkeyHeld`, in which a passkey is still
stored: an unknown peer is rejected and `UNAUTH` is written. -/
theorem rejections_are_displayed_witness :
    Reachable passkeyHeld ∧
      (∃ c, Effect.disconnect c ∈
        (onConnect passkeyHeld ⟨1, some [⟨1, 2, 3, 4, 5, 6⟩], true, 70000⟩
          ⟨3, ⟨9, 9, 9, 9, 9, 9⟩⟩).2) ∧
      (onConnect passkeyHeld ⟨1, some [⟨1, 2, 3, 4, 5, 6⟩], true, 70000⟩
          ⟨3, ⟨9, 9, 9, 9, 9, 9⟩⟩).2.filter Effect.isDisplay =
        [Effect.clearMatrix, Effect.setChar 7 'U' false, Effect.setChar 6 'N' false,
         Effect.setChar 5 'A' false, Effect.setChar 4 'U' false, Effect.setChar 3 'T' false,
         Effect.setChar 2 'H' false] := by
  have hd : ∃ c, Effect.disconnect c ∈
      (onConnect passkeyHeld ⟨1, some [⟨1, 2, 3, 4, 5, 6⟩], true, 70000⟩
        ⟨3, ⟨9, 9, 9, 9, 9, 9⟩⟩).2 := ⟨3, by decide⟩
  exact ⟨passkeyHeld_reachable, hd,
    ((rejections_are_displayed passkeyHeld passkeyHeld_reachable).1
      ⟨1, some [⟨1, 2, 3, 4, 5, 6⟩], true, 70000⟩ ⟨3, ⟨9, 9, 9, 9, 9, 9⟩⟩ hd).2⟩

/-! ## Gesture detector: bound on the countdown -/

/-- Before the threshold the number of seconds computed at line 194 is at most
`requiredDuration / 1000`. -/
theorem countdown_bound_before_threshold (rd e : Nat) (hrd : rd < U32) (he : e ≤ rd) :
    sub32 rd e / 1000 ≤ rd / 1000 := by
  rw [sub32_of_le rd e hrd he]
  exact Nat.div_le_div_right (Nat.sub_le rd e)

/-- C22. At a poll 5005 ms into a 5000 ms hold the elapsed time exceeds
`requiredDuration`, the 32-bit difference at line 194 wraps to 4294967291, and
the function passes 4294967 to the display (which shows `PAIr.429-`) and to
the log before it returns `true`; the bound `requiredDuration / 1000` is 5. -/
theorem countdown_wraps_past_threshold :
    sub32 5000 (Poll.elapsed 0 ⟨true, 5005, 5005⟩) / 1000 = 4294967 ∧
      ¬(4294967 ≤ 5000 / 1000) ∧
      (waitForButtonPressDuration State.initial ⟨0, true, [⟨true, 5005, 5005⟩]⟩ 5000
          "PAIr").map (fun r => (r.1, r.2.2)) =
        some (true,
          [Effect.delay 15, Effect.clearMatrix, Effect.setChar 7 'P' false,
           Effect.setChar 6 'A' false, Effect.setChar 5 'I' false, Effect.setChar 4 'r' true,
           Effect.setChar 3 '4' false, Effect.setChar 2 '2' false, Effect.setChar 1 '9' false,
           Effect.setChar 0 '-' false, countdownLog 4294967, Effect.clearMatrix]) := by
  decide

/-! ## Display: digit indices -/

/-- With start segment 7, which no call in the program uses, the position
counter starts at 0; after the first character the post-decrement of the 8-bit counter wraps to 255, the test
`segPos == 0` at line 132 is false, and the second character of `"ab"` is
passed to `setChar` with digit index 255. No `-` is written although the text
does not fit. -/
theorem displayString_index_wraps :
    (displayString State.initial 0 "ab" 7 "").2 =
        [Effect.clearMatrix, Effect.setChar 0 'a' false, Effect.setChar 255 'b' false] ∧
      (displayString State.initial 0 "ab" 7 "").2.all Effect.indexOk = false ∧
      Effect.setChar 0 '-' false ∉ (displayString State.initial 0 "ab" 7 "").2 := by
  decide

/-! ## Display: digit indices in the operations of the program -/

end GarageDoor
